import Mathlib

/-!
# qs::lifecycle_tracker — counters, serial tracker, concurrent tracker

A shallow embedding of `qs/lifecycle_tracker.h`.

* `size_t` is a 64-bit unsigned integer: every `size_t` value is a `Nat`
  and every `size_t` operation is reduced modulo `SIZE_MOD = 2 ^ 64`.
* The statics of one template instantiation (`counters_`, `type_name_`) and
  the statics of `demangler<T>` are fields of an explicit state.
* Tracked instances live in a store keyed by their address; `this` and
  `std::addressof(other)` are addresses.
* Every operation appends what it does, in program order, to `trace`.
-/

namespace qs

/-! ## Counter state -/

/-- The enum `lifecycle_event`. -/
inductive lifecycle_event
  | Constructor
  | CopyConstructor
  | MoveConstructor
  | CopyAssignment
  | MoveAssignment
  | Destructor
  deriving DecidableEq, Repr

/-- The enumerator value, `static_cast<size_t>(Cnt)`. -/
def lifecycle_event.index : lifecycle_event → Fin 6
  | .Constructor => 0
  | .CopyConstructor => 1
  | .MoveConstructor => 2
  | .CopyAssignment => 3
  | .MoveAssignment => 4
  | .Destructor => 5

/-- Number of values of `size_t` (64-bit targets). -/
def SIZE_MOD : Nat := 2 ^ 64

/-- The conversion `static_cast<ptrdiff_t>(x)` of a `size_t` value (values from
`2 ^ 63` on become negative). -/
def to_ptrdiff (x : Nat) : Int :=
  if x < 2 ^ 63 then (x : Int) else (x : Int) - 2 ^ 64

/-- The struct `lifecycle_counters`: six `size_t` fields. -/
structure lifecycle_counters where
  constructor : Nat
  copy_constructor : Nat
  move_constructor : Nat
  copy_assignment : Nat
  move_assignment : Nat
  destructor : Nat
  deriving DecidableEq, Repr

namespace lifecycle_counters

/-- The method `total_constructed()`: a `size_t` sum. -/
def total_constructed (c : lifecycle_counters) : Nat :=
  (c.constructor + c.copy_constructor + c.move_constructor) % SIZE_MOD

/-- The method `total_assigned()`: a `size_t` sum. -/
def total_assigned (c : lifecycle_counters) : Nat :=
  (c.copy_assignment + c.move_assignment) % SIZE_MOD

/-- The method `alive()`: the difference of the two converted values. (A difference
outside the range of `ptrdiff_t` is undefined in the source; the exact difference is
kept here.) -/
def alive (c : lifecycle_counters) : Int :=
  to_ptrdiff c.total_constructed - to_ptrdiff c.destructor

/-- The `operator==` of `lifecycle_counters`. -/
def eq (c rhs : lifecycle_counters) : Bool :=
  c.constructor == rhs.constructor && c.copy_constructor == rhs.copy_constructor &&
  c.move_constructor == rhs.move_constructor && c.copy_assignment == rhs.copy_assignment &&
  c.move_assignment == rhs.move_assignment && c.destructor == rhs.destructor

end lifecycle_counters

/-! ## The wrapped type, instances and effects -/

/-- The address of a tracked instance. -/
abbrev Addr := Nat

/-- What the tracker relies on from the wrapped class `T`: the value a move leaves in
its source, and the name `demangler<T>::set_default_` computes for `T`. -/
class wrapped (T : Type) where
  moved_from : T → T
  default_name : String

/-- The live instances of one tracker type with the `T` value embedded in each. -/
abbrev store (T : Type) := List (Addr × T)

/-- One effect of an operation. `value_op` is the operation of the embedded `T`
(its constructor, assignment operator or destructor), `increment` is `++` on a counter
slot, `log_event` and `print_counters` are the calls into `logger_`. -/
inductive effect (T : Type)
  | value_op (e : lifecycle_event) (self : Addr)
  | increment (e : lifecycle_event)
  | log_event (e : lifecycle_event) (self : Option T) (type_name : String)
  | print_counters (cnts : lifecycle_counters) (type_name : String)
  deriving DecidableEq, Repr

/-- The state seen by one tracker instantiation `(T, Uuid)`. `C` is the type of
`counters_`: `lifecycle_counters` for the serial tracker, six atomic cells for the
concurrent one. `demangler_type_name_` is `demangler<T>::type_name_`. -/
structure state (C : Type) (T : Type) where
  counters_ : C
  type_name_ : String
  demangler_type_name_ : String
  objects : store T
  trace : List (effect T)

namespace store

variable {T : Type}

/-- The `T` value of the instance at `a`, if one is live there. -/
def value_at (h : store T) (a : Addr) : Option T :=
  (h.find? (fun p => p.1 == a)).map (fun p => p.2)

/-- Overwrite the `T` value of the instance at `a`. -/
def assign (h : store T) (a : Addr) (v : T) : store T :=
  h.map (fun p => if p.1 == a then (a, v) else p)

/-- The operation `T(args...)` at `self`, producing the value `v`. -/
def construct (h : store T) (self : Addr) (v : T) : store T :=
  (self, v) :: h

/-- The operation `T(T const&)`. -/
def copy_construct (h : store T) (self other : Addr) : store T :=
  match h.value_at other with
  | some v => (self, v) :: h
  | none => h

/-- The operation `T(T&&)`. -/
def move_construct [wrapped T] (h : store T) (self other : Addr) : store T :=
  match h.value_at other with
  | some v => (self, v) :: h.assign other (wrapped.moved_from v)
  | none => h

/-- The operation `T::operator=(T const&)`. -/
def copy_assign (h : store T) (self other : Addr) : store T :=
  match h.value_at other with
  | some v => h.assign self v
  | none => h

/-- The operation `T::operator=(T&&)`. -/
def move_assign [wrapped T] (h : store T) (self other : Addr) : store T :=
  match h.value_at other with
  | some v => (h.assign other (wrapped.moved_from v)).assign self v
  | none => h

/-- The operation `~T()`; the instance is no longer live. -/
def destroy (h : store T) (self : Addr) : store T :=
  h.eraseP (fun p => p.1 == self)

end store

namespace state

variable {C T : Type}

/-- Append one effect to the trace. -/
def emit (s : state C T) (x : effect T) : state C T :=
  { s with trace := s.trace ++ [x] }

/-- Run an operation of the embedded `T` on the store and record it. -/
def value_op (s : state C T) (e : lifecycle_event) (self : Addr)
    (f : store T → store T) : state C T :=
  { s with objects := f s.objects, trace := s.trace ++ [effect.value_op e self] }

end state

/-! ## demangler -/

namespace demangler

variable {C T : Type}

/-- The function `demangler<T>::set_default_()`. -/
def set_default_ [wrapped T] (s : state C T) : state C T :=
  { s with demangler_type_name_ := wrapped.default_name T }

/-- The function `demangler<T>::set(type_name)`. -/
def set (s : state C T) (type_name : String) : state C T :=
  { s with demangler_type_name_ := type_name }

/-- The function `demangler<T>::get()`: the returned name and the state after. -/
def get [wrapped T] (s : state C T) : String × state C T :=
  let s1 := if s.demangler_type_name_ = "" then set_default_ s else s
  (s1.demangler_type_name_, s1)

end demangler

/-! ## intl::lifecycle_tracker_base (serial) -/

namespace intl

namespace lifecycle_tracker_base

variable {T : Type}

/-- The function `get_counter<Cnt>()`, read: `std::get<Cnt>(std::tie(...))`. -/
def get_counter (e : lifecycle_event) (c : lifecycle_counters) : Nat :=
  match e with
  | .Constructor => c.constructor
  | .CopyConstructor => c.copy_constructor
  | .MoveConstructor => c.move_constructor
  | .CopyAssignment => c.copy_assignment
  | .MoveAssignment => c.move_assignment
  | .Destructor => c.destructor

/-- A write through the reference `get_counter<Cnt>()` returns. -/
def set_counter (e : lifecycle_event) (c : lifecycle_counters) (n : Nat) : lifecycle_counters :=
  match e with
  | .Constructor => { c with constructor := n }
  | .CopyConstructor => { c with copy_constructor := n }
  | .MoveConstructor => { c with move_constructor := n }
  | .CopyAssignment => { c with copy_assignment := n }
  | .MoveAssignment => { c with move_assignment := n }
  | .Destructor => { c with destructor := n }

/-- The statement `++get_counter<Cnt>()` on a `size_t`. -/
def increment (e : lifecycle_event) (s : state lifecycle_counters T) :
    state lifecycle_counters T :=
  ({ s with counters_ :=
      set_counter e s.counters_ ((get_counter e s.counters_ + 1) % SIZE_MOD) }).emit
    (effect.increment e)

/-- The function `set_type_name(type_name)`. -/
def set_type_name (s : state lifecycle_counters T) (type_name : String) :
    state lifecycle_counters T :=
  { s with type_name_ := type_name }

/-- The function `get_type_name()`: the returned name and the state after. -/
def get_type_name [wrapped T] (s : state lifecycle_counters T) :
    String × state lifecycle_counters T :=
  let s1 := if s.type_name_ = "" then
      set_type_name (demangler.get s).2 (demangler.get s).1
    else s
  (s1.type_name_, s1)

/-- The function `log_and_increment<Cnt>()` called on the instance at `self`. -/
def log_and_increment [wrapped T] (e : lifecycle_event) (self : Addr)
    (s : state lifecycle_counters T) : state lifecycle_counters T :=
  let s1 := increment e s
  let s2 := (get_type_name s1).2
  s2.emit (effect.log_event e (s2.objects.value_at self) (get_type_name s1).1)

/-- The default constructor `lifecycle_tracker_base()`. -/
def ctor [wrapped T] (self : Addr) (s : state lifecycle_counters T) :
    state lifecycle_counters T :=
  log_and_increment .Constructor self s

/-- The copy constructor `lifecycle_tracker_base(lifecycle_tracker_base const&)`. -/
def copy_ctor [wrapped T] (self _other : Addr) (s : state lifecycle_counters T) :
    state lifecycle_counters T :=
  log_and_increment .CopyConstructor self s

/-- The copy assignment `operator=(lifecycle_tracker_base const& other)`. -/
def copy_assign [wrapped T] (self other : Addr) (s : state lifecycle_counters T) :
    state lifecycle_counters T :=
  if self ≠ other then log_and_increment .CopyAssignment self s else s

/-- The move constructor `lifecycle_tracker_base(lifecycle_tracker_base&&)`. -/
def move_ctor [wrapped T] (self _other : Addr) (s : state lifecycle_counters T) :
    state lifecycle_counters T :=
  log_and_increment .MoveConstructor self s

/-- The move assignment `operator=(lifecycle_tracker_base&& other)`. -/
def move_assign [wrapped T] (self other : Addr) (s : state lifecycle_counters T) :
    state lifecycle_counters T :=
  if self ≠ other then log_and_increment .MoveAssignment self s else s

/-- The destructor `~lifecycle_tracker_base()`. -/
def dtor [wrapped T] (self : Addr) (s : state lifecycle_counters T) :
    state lifecycle_counters T :=
  log_and_increment .Destructor self s

/-- The function `reset_counters()`: `counters_ = lifecycle_counters{}`. -/
def reset_counters (s : state lifecycle_counters T) : state lifecycle_counters T :=
  { s with counters_ := ⟨0, 0, 0, 0, 0, 0⟩ }

/-- The function `get_counters()`. -/
def get_counters (s : state lifecycle_counters T) : lifecycle_counters :=
  s.counters_

/-- The function `print_counters()`: the returned counters and the state after. -/
def print_counters [wrapped T] (s : state lifecycle_counters T) :
    lifecycle_counters × state lifecycle_counters T :=
  let cnts := get_counters s
  let s1 := (get_type_name s).2
  (cnts, s1.emit (effect.print_counters cnts (get_type_name s).1))

end lifecycle_tracker_base

/-! ## intl::lifecycle_tracker_mt_base (concurrent), run by one thread -/

namespace lifecycle_tracker_mt_base

variable {T : Type}

/-- The array `counters_[6]` of atomic cells. -/
abbrev cells := Fin 6 → Nat

/-- The function `get_counter<Cnt>()`, loaded: `counters_[Cnt].value.load(relaxed)`. -/
def get_counter (e : lifecycle_event) (c : cells) : Nat :=
  c e.index

/-- The call `get_counter<Cnt>().store(n, relaxed)`. -/
def store_counter (e : lifecycle_event) (c : cells) (n : Nat) : cells :=
  Function.update c e.index n

/-- The call `get_counter<Cnt>().fetch_add(1, relaxed)` on an atomic `size_t`. -/
def fetch_add (e : lifecycle_event) (s : state cells T) : state cells T :=
  ({ s with counters_ :=
      store_counter e s.counters_ ((get_counter e s.counters_ + 1) % SIZE_MOD) }).emit
    (effect.increment e)

/-- The function `set_type_name(type_name)`. -/
def set_type_name (s : state cells T) (type_name : String) : state cells T :=
  { s with type_name_ := type_name }

/-- The function `get_type_name()`: the returned name and the state after. -/
def get_type_name [wrapped T] (s : state cells T) : String × state cells T :=
  let s1 := if s.type_name_ = "" then
      set_type_name (demangler.get s).2 (demangler.get s).1
    else s
  (s1.type_name_, s1)

/-- The function `log_and_increment<Cnt>()` called on the instance at `self`. -/
def log_and_increment [wrapped T] (e : lifecycle_event) (self : Addr)
    (s : state cells T) : state cells T :=
  let s1 := fetch_add e s
  let s2 := (get_type_name s1).2
  s2.emit (effect.log_event e (s2.objects.value_at self) (get_type_name s1).1)

/-- The default constructor `lifecycle_tracker_mt_base()`. -/
def ctor [wrapped T] (self : Addr) (s : state cells T) : state cells T :=
  log_and_increment .Constructor self s

/-- The copy constructor `lifecycle_tracker_mt_base(lifecycle_tracker_mt_base const&)`. -/
def copy_ctor [wrapped T] (self _other : Addr) (s : state cells T) : state cells T :=
  log_and_increment .CopyConstructor self s

/-- The copy assignment `operator=(lifecycle_tracker_mt_base const& other)`. -/
def copy_assign [wrapped T] (self other : Addr) (s : state cells T) : state cells T :=
  if self ≠ other then log_and_increment .CopyAssignment self s else s

/-- The move constructor `lifecycle_tracker_mt_base(lifecycle_tracker_mt_base&&)`. -/
def move_ctor [wrapped T] (self _other : Addr) (s : state cells T) : state cells T :=
  log_and_increment .MoveConstructor self s

/-- The move assignment `operator=(lifecycle_tracker_mt_base&& other)`. -/
def move_assign [wrapped T] (self other : Addr) (s : state cells T) : state cells T :=
  if self ≠ other then log_and_increment .MoveAssignment self s else s

/-- The destructor `~lifecycle_tracker_mt_base()`. -/
def dtor [wrapped T] (self : Addr) (s : state cells T) : state cells T :=
  log_and_increment .Destructor self s

/-- The function `reset_counters()`: six stores of 0 between the two fences. -/
def reset_counters (s : state cells T) : state cells T :=
  let c0 := store_counter .Constructor s.counters_ 0
  let c1 := store_counter .CopyConstructor c0 0
  let c2 := store_counter .MoveConstructor c1 0
  let c3 := store_counter .CopyAssignment c2 0
  let c4 := store_counter .MoveAssignment c3 0
  let c5 := store_counter .Destructor c4 0
  { s with counters_ := c5 }

/-- The function `get_counters()`: six loads between the two fences. -/
def get_counters (s : state cells T) : lifecycle_counters :=
  { constructor := get_counter .Constructor s.counters_
    copy_constructor := get_counter .CopyConstructor s.counters_
    move_constructor := get_counter .MoveConstructor s.counters_
    copy_assignment := get_counter .CopyAssignment s.counters_
    move_assignment := get_counter .MoveAssignment s.counters_
    destructor := get_counter .Destructor s.counters_ }

/-- The function `print_counters()`: the returned counters and the state after. -/
def print_counters [wrapped T] (s : state cells T) : lifecycle_counters × state cells T :=
  let cnts := get_counters s
  let s1 := (get_type_name s).2
  (cnts, s1.emit (effect.print_counters cnts (get_type_name s).1))

end lifecycle_tracker_mt_base

end intl

/-! ## The wrappers lifecycle_tracker and lifecycle_tracker_mt

Both derive from `T` first and from the tracker base second, and declare no
special member themselves: each implicit special member runs the one of `T`, then
the one of the base, and the implicit destructor runs them in reverse.
-/

/-- One lifecycle event on tracked instances: `self` is the instance acted on
(`this`), `other` the source of a copy or move. -/
inductive operation (T : Type)
  | construct (self : Addr) (v : T)
  | copy_construct (self other : Addr)
  | move_construct (self other : Addr)
  | copy_assign (self other : Addr)
  | move_assign (self other : Addr)
  | destroy (self : Addr)
  deriving DecidableEq, Repr

namespace operation

variable {T : Type}

/-- The kind of a lifecycle event. -/
def kind : operation T → lifecycle_event
  | construct _ _ => .Constructor
  | copy_construct _ _ => .CopyConstructor
  | move_construct _ _ => .MoveConstructor
  | copy_assign _ _ => .CopyAssignment
  | move_assign _ _ => .MoveAssignment
  | destroy _ => .Destructor

/-- The instance the event acts on. -/
def self : operation T → Addr
  | construct a _ => a
  | copy_construct a _ => a
  | move_construct a _ => a
  | copy_assign a _ => a
  | move_assign a _ => a
  | destroy a => a

/-- An assignment whose source and destination are the identical instance. -/
def self_assignment : operation T → Bool
  | copy_assign a b => a == b
  | move_assign a b => a == b
  | _ => false

/-- The event is of kind `e` and is not a self-assignment. -/
def counted (e : lifecycle_event) (o : operation T) : Bool :=
  o.kind == e && !o.self_assignment

/-- The event respects object lifetime in the store `h`: a constructor runs where no
instance is live, every other event acts on live instances only. -/
def allowed (h : store T) : operation T → Bool
  | construct a _ => (h.value_at a).isNone
  | copy_construct a b => (h.value_at a).isNone && (h.value_at b).isSome
  | move_construct a b => (h.value_at a).isNone && (h.value_at b).isSome
  | copy_assign a b => (h.value_at a).isSome && (h.value_at b).isSome
  | move_assign a b => (h.value_at a).isSome && (h.value_at b).isSome
  | destroy a => (h.value_at a).isSome

end operation

namespace lifecycle_tracker

variable {T : Type} [wrapped T]

open intl

/-- One lifecycle event on instances of `lifecycle_tracker<T, Uuid>`. -/
def apply (o : operation T) (s : state lifecycle_counters T) : state lifecycle_counters T :=
  match o with
  | .construct self v =>
    lifecycle_tracker_base.ctor self
      (s.value_op .Constructor self (fun h => h.construct self v))
  | .copy_construct self other =>
    lifecycle_tracker_base.copy_ctor self other
      (s.value_op .CopyConstructor self (fun h => h.copy_construct self other))
  | .move_construct self other =>
    lifecycle_tracker_base.move_ctor self other
      (s.value_op .MoveConstructor self (fun h => h.move_construct self other))
  | .copy_assign self other =>
    lifecycle_tracker_base.copy_assign self other
      (s.value_op .CopyAssignment self (fun h => h.copy_assign self other))
  | .move_assign self other =>
    lifecycle_tracker_base.move_assign self other
      (s.value_op .MoveAssignment self (fun h => h.move_assign self other))
  | .destroy self =>
    (lifecycle_tracker_base.dtor self s).value_op .Destructor self (fun h => h.destroy self)

/-- A sequence of lifecycle events, first to last. -/
def run (os : List (operation T)) (s : state lifecycle_counters T) :
    state lifecycle_counters T :=
  os.foldl (fun s o => apply o s) s

end lifecycle_tracker

namespace lifecycle_tracker_mt

variable {T : Type} [wrapped T]

open intl

/-- One lifecycle event on instances of `lifecycle_tracker_mt<T, Uuid>`. -/
def apply (o : operation T) (s : state lifecycle_tracker_mt_base.cells T) :
    state lifecycle_tracker_mt_base.cells T :=
  match o with
  | .construct self v =>
    lifecycle_tracker_mt_base.ctor self
      (s.value_op .Constructor self (fun h => h.construct self v))
  | .copy_construct self other =>
    lifecycle_tracker_mt_base.copy_ctor self other
      (s.value_op .CopyConstructor self (fun h => h.copy_construct self other))
  | .move_construct self other =>
    lifecycle_tracker_mt_base.move_ctor self other
      (s.value_op .MoveConstructor self (fun h => h.move_construct self other))
  | .copy_assign self other =>
    lifecycle_tracker_mt_base.copy_assign self other
      (s.value_op .CopyAssignment self (fun h => h.copy_assign self other))
  | .move_assign self other =>
    lifecycle_tracker_mt_base.move_assign self other
      (s.value_op .MoveAssignment self (fun h => h.move_assign self other))
  | .destroy self =>
    (lifecycle_tracker_mt_base.dtor self s).value_op .Destructor self (fun h => h.destroy self)

/-- A sequence of lifecycle events, first to last. -/
def run (os : List (operation T)) (s : state lifecycle_tracker_mt_base.cells T) :
    state lifecycle_tracker_mt_base.cells T :=
  os.foldl (fun s o => apply o s) s

end lifecycle_tracker_mt

/-! ## The test class -/

/-- The class `MyInt` of the test suite. -/
structure MyInt where
  v : Int
  deriving DecidableEq, Repr

instance : wrapped MyInt where
  moved_from := fun x => x
  default_name := "MyInt"

/-- Zero-initialised statics and no live instance: the state at program start. -/
def start (T : Type) : state lifecycle_counters T :=
  { counters_ := ⟨0, 0, 0, 0, 0, 0⟩
    type_name_ := ""
    demangler_type_name_ := ""
    objects := []
    trace := [] }

/-- Zero-initialised statics and no live instance, concurrent tracker. -/
def start_mt (T : Type) : state intl.lifecycle_tracker_mt_base.cells T :=
  { counters_ := fun _ => 0
    type_name_ := ""
    demangler_type_name_ := ""
    objects := []
    trace := [] }

/-! ## Histories -/

namespace operation

variable {T : Type} [wrapped T]

/-- What the event does to the embedded `T` values: the operation of `T` that the
implicit special member of the wrapper runs. -/
def on_store (o : operation T) (h : store T) : store T :=
  match o with
  | construct self v => h.construct self v
  | copy_construct self other => h.copy_construct self other
  | move_construct self other => h.move_construct self other
  | copy_assign self other => h.copy_assign self other
  | move_assign self other => h.move_assign self other
  | destroy self => h.destroy self

end operation

/-- A history that respects object lifetime from the store `h` on: each event is
`allowed` in the store the events before it have produced. -/
def well_formed {T : Type} [wrapped T] : List (operation T) → store T → Bool
  | [], _ => true
  | o :: os, h => o.allowed h && well_formed os (o.on_store h)

/-- Number of events of kind `e` in a sequence. -/
def occurrences {T : Type} (e : lifecycle_event) (os : List (operation T)) : Nat :=
  os.countP (fun o => o.kind == e)

/-- The loop `for (i = 0; i < n; ++i) { tracker x(v); }`: `n` times, one instance is
constructed at address 0 and destroyed. -/
def churn {T : Type} (v : T) : Nat → List (operation T)
  | 0 => []
  | n + 1 => operation.construct 0 v :: operation.destroy 0 :: churn v n

/-- A call of the public surface: a lifecycle event or `reset_counters()`. -/
inductive call (T : Type)
  | event (o : operation T)
  | reset_counters
  deriving DecidableEq, Repr

/-- A sequence of calls on the serial tracker, first to last. -/
def lifecycle_tracker.exec {T : Type} [wrapped T] (cs : List (call T))
    (s : state lifecycle_counters T) : state lifecycle_counters T :=
  cs.foldl (fun s c =>
    match c with
    | call.event o => lifecycle_tracker.apply o s
    | call.reset_counters => intl.lifecycle_tracker_base.reset_counters s) s

/-- A sequence of calls on the concurrent tracker made by one thread, first to last. -/
def lifecycle_tracker_mt.exec {T : Type} [wrapped T] (cs : List (call T))
    (s : state intl.lifecycle_tracker_mt_base.cells T) :
    state intl.lifecycle_tracker_mt_base.cells T :=
  cs.foldl (fun s c =>
    match c with
    | call.event o => lifecycle_tracker_mt.apply o s
    | call.reset_counters => intl.lifecycle_tracker_mt_base.reset_counters s) s

/-- A short history on `MyInt` instances at addresses 0, 1 and 2: two constructions, a
copy construction, a move construction, a copy and a move assignment between distinct
instances, then every instance is destroyed. -/
def sample_history : List (operation MyInt) :=
  [ operation.construct 0 ⟨10⟩, operation.construct 1 ⟨17⟩, operation.copy_construct 2 0,
    operation.copy_assign 1 2, operation.move_assign 0 1, operation.destroy 2,
    operation.move_construct 2 1, operation.destroy 0, operation.destroy 1,
    operation.destroy 2 ]

/-- Slot `e` of `c'` is slot `e` of `c` after one `++` on a `size_t`, and every other
slot of `c'` is the slot of `c`. -/
def lifecycle_counters.bumped (e : lifecycle_event) (c c' : lifecycle_counters) : Prop :=
  intl.lifecycle_tracker_base.get_counter e c' =
      (intl.lifecycle_tracker_base.get_counter e c + 1) % SIZE_MOD ∧
    ∀ e', e' ≠ e →
      intl.lifecycle_tracker_base.get_counter e' c' = intl.lifecycle_tracker_base.get_counter e' c

/-- The serial state after `sample_history` has constructed its first two instances. -/
def two_live : state lifecycle_counters MyInt :=
  lifecycle_tracker.run (sample_history.take 2) (start MyInt)

/-- The concurrent state after `sample_history` has constructed its first two
instances. -/
def two_live_mt : state intl.lifecycle_tracker_mt_base.cells MyInt :=
  lifecycle_tracker_mt.run (sample_history.take 2) (start_mt MyInt)

/-- A short sequence of calls on `MyInt` instances: two constructions and a
self-assignment, `reset_counters()` while both instances are live, then a construction,
a copy construction, a copy assignment between distinct instances and two
destructions. -/
def sample_calls : List (call MyInt) :=
  [ call.event (operation.construct 0 ⟨10⟩), call.event (operation.construct 1 ⟨17⟩),
    call.event (operation.move_assign 1 1), call.reset_counters,
    call.event (operation.construct 2 ⟨22⟩), call.event (operation.copy_construct 3 0),
    call.event (operation.copy_assign 0 2), call.event (operation.destroy 3),
    call.event (operation.destroy 2) ]

/-! ## Several tags over one wrapped type -/

/-- The statics of the tracker instantiations over one wrapped type `T`, one set per
`Uuid`: each of `counters_`, `type_name_`, the instances and the trace is a separate
variable for every `Uuid`; `demangler<T>::type_name_` is one variable shared by all. -/
structure world (C : Type) (T : Type) where
  counters_ : Nat → C
  type_name_ : Nat → String
  objects : Nat → store T
  trace : Nat → List (effect T)
  demangler_type_name_ : String

namespace world

variable {C T : Type}

/-- The state the instantiation with tag `uuid` sees. -/
def view (w : world C T) (uuid : Nat) : state C T :=
  { counters_ := w.counters_ uuid
    type_name_ := w.type_name_ uuid
    demangler_type_name_ := w.demangler_type_name_
    objects := w.objects uuid
    trace := w.trace uuid }

/-- Write back the state the instantiation with tag `uuid` has produced. -/
def put (w : world C T) (uuid : Nat) (s : state C T) : world C T :=
  { counters_ := Function.update w.counters_ uuid s.counters_
    type_name_ := Function.update w.type_name_ uuid s.type_name_
    objects := Function.update w.objects uuid s.objects
    trace := Function.update w.trace uuid s.trace
    demangler_type_name_ := s.demangler_type_name_ }

/-- Run an operation of the instantiation with tag `uuid`. -/
def under (uuid : Nat) (f : state C T → state C T) (w : world C T) : world C T :=
  w.put uuid (f (w.view uuid))

end world

/-- Program start for the serial trackers over `T`, every tag. -/
def start_world (T : Type) : world lifecycle_counters T :=
  { counters_ := fun _ => ⟨0, 0, 0, 0, 0, 0⟩
    type_name_ := fun _ => ""
    objects := fun _ => []
    trace := fun _ => []
    demangler_type_name_ := "" }

/-- Program start for the concurrent trackers over `T`, every tag. -/
def start_world_mt (T : Type) : world intl.lifecycle_tracker_mt_base.cells T :=
  { counters_ := fun _ _ => 0
    type_name_ := fun _ => ""
    objects := fun _ => []
    trace := fun _ => []
    demangler_type_name_ := "" }

/-- A serial state whose `constructor` slot holds `SIZE_MAX`, no instance live. -/
def constructor_at_max : state lifecycle_counters MyInt :=
  { start MyInt with counters_ := ⟨SIZE_MOD - 1, 0, 0, 0, 0, 0⟩ }

/-- A serial state whose `destructor` slot holds `SIZE_MAX`, with one instance live at
address 0. -/
def destructor_at_max : state lifecycle_counters MyInt :=
  { start MyInt with counters_ := ⟨0, 0, 0, 0, 0, SIZE_MOD - 1⟩, objects := [(0, ⟨10⟩)] }

/-! ## Names -/

/-- A call that is not `set_type_name`: a lifecycle event, one of the static functions
`reset_counters()`, `print_counters()`, `get_type_name()`, or `demangler<T>::set`. -/
inductive action (T : Type)
  | event (o : operation T)
  | reset_counters
  | print_counters
  | get_type_name
  | demangler_set (type_name : String)
  deriving DecidableEq, Repr

/-- One `action` on the serial tracker. -/
def lifecycle_tracker.perform {T : Type} [wrapped T] (a : action T)
    (s : state lifecycle_counters T) : state lifecycle_counters T :=
  match a with
  | action.event o => lifecycle_tracker.apply o s
  | action.reset_counters => intl.lifecycle_tracker_base.reset_counters s
  | action.print_counters => (intl.lifecycle_tracker_base.print_counters s).2
  | action.get_type_name => (intl.lifecycle_tracker_base.get_type_name s).2
  | action.demangler_set n => demangler.set s n

/-- A sequence of `action`s on the serial tracker, first to last. -/
def lifecycle_tracker.perform_all {T : Type} [wrapped T] (as : List (action T))
    (s : state lifecycle_counters T) : state lifecycle_counters T :=
  as.foldl (fun s a => lifecycle_tracker.perform a s) s

/-- A snapshot whose `constructor` slot holds `2 ^ 63`, the least `size_t` value that
`static_cast<ptrdiff_t>` turns negative. -/
def constructed_half_range : lifecycle_counters :=
  ⟨2 ^ 63, 0, 0, 0, 0, 0⟩

/-! ## What the logger is given -/

/-- The `log_event` calls recorded in a trace, in order: the event kind and the value
of `self` each call was given. -/
def logged {T : Type} : List (effect T) → List (lifecycle_event × Option T)
  | [] => []
  | effect.log_event e v _ :: t => (e, v) :: logged t
  | effect.value_op _ _ :: t => logged t
  | effect.increment _ :: t => logged t
  | effect.print_counters _ _ :: t => logged t

/-- The value, in the store `h` before the event, that the instance the event acts on
holds once the operation of `T` is done: the value constructed for a construction, the
value of the source for a copy or move construction and for an assignment, the value of
the instance itself for a destruction. -/
def operation.acted_value {T : Type} (o : operation T) (h : store T) : Option T :=
  match o with
  | operation.construct _ v => some v
  | operation.copy_construct _ other => h.value_at other
  | operation.move_construct _ other => h.value_at other
  | operation.copy_assign _ other => h.value_at other
  | operation.move_assign _ other => h.value_at other
  | operation.destroy self => h.value_at self

/-- One entry per counted event of a history run from the store `h`, in event order:
the kind of the event and `acted_value` of the event in the store it meets. -/
def expected_log {T : Type} [wrapped T] :
    List (operation T) → store T → List (lifecycle_event × Option T)
  | [], _ => []
  | o :: os, h =>
    (if o.self_assignment then [] else [(o.kind, o.acted_value h)]) ++
      expected_log os (o.on_store h)

/-- The first steps of the test `CopyTrivialType`: `emplace_back(10)`, `emplace_back(17)`
into slots 0 and 1 of a vector with reserved capacity, then
`insert(cend(), {22, 23, 24, 25})`: the four elements of the initializer list are
constructed (addresses 100 to 103), copied into slots 2 to 5, and destroyed in reverse
order. -/
def test_history : List (operation MyInt) :=
  [ operation.construct 0 ⟨10⟩, operation.construct 1 ⟨17⟩,
    operation.construct 100 ⟨22⟩, operation.construct 101 ⟨23⟩,
    operation.construct 102 ⟨24⟩, operation.construct 103 ⟨25⟩,
    operation.copy_construct 2 100, operation.copy_construct 3 101,
    operation.copy_construct 4 102, operation.copy_construct 5 103,
    operation.destroy 103, operation.destroy 102, operation.destroy 101,
    operation.destroy 100 ]

/-! ## The default logger -/

namespace fmt

/-- An argument of a print call: a `std::string`, a `size_t` or a `ptrdiff_t`. -/
inductive arg
  | str (s : String)
  | size (n : Nat)
  | diff (i : Int)
  deriving DecidableEq, Repr

/-- A part of a format string: literal text, or a replacement field with its minimum
width (`{}` has width 0, `{:>5}` is right-aligned with width 5). -/
inductive segment
  | text (s : String)
  | field (width : Nat)
  deriving DecidableEq, Repr

/-- A part of the output: literal text of the format string, or an argument printed in
a field of the given minimum width. -/
inductive piece
  | text (s : String)
  | value (a : arg) (width : Nat)
  deriving DecidableEq, Repr

/-- The width in a field specification: the decimal number its digits spell. -/
def width (spec : List Char) : Nat :=
  spec.foldl (fun n c => if c.isDigit then 10 * n + (c.toNat - 48) else n) 0

/-- Literal text collected so far, as a segment (none when empty). -/
def flush (lit : List Char) : List segment :=
  if lit = [] then [] else [segment.text (String.mk lit)]

/-- Splitting a format string at its replacement fields. `lit` is the literal text
read since the last field; `spec` is the specification read so far when inside a
field. -/
def split : List Char → List Char → Option (List Char) → List segment
  | [], lit, _ => flush lit
  | c :: cs, lit, none =>
    if c = '\x7b' then flush lit ++ split cs [] (some [])
    else split cs (lit ++ [c]) none
  | c :: cs, lit, some spec =>
    if c = '\x7d' then segment.field (width spec) :: split cs [] none
    else split cs lit (some (spec ++ [c]))

/-- Filling the replacement fields with the arguments, in order (automatic argument
indexing). -/
def fill : List segment → List arg → List piece
  | [], _ => []
  | segment.text s :: segs, args => piece.text s :: fill segs args
  | segment.field w :: segs, a :: args => piece.value a w :: fill segs args
  | segment.field _ :: segs, [] => fill segs []

/-- The call `fmt::print(format, args...)`, which `QS_LIFECYCLE_LOGGER_PRINT` expands
to when the fmt library is present (as in the test suite): what is written. -/
def print (format : String) (args : List arg) : List piece :=
  fill (split format.toList [] none) args

end fmt

namespace lifecycle_default_logger

/-- The format string `counter_fmt_` (fmt variant):
`"Lifecycle tracker [type: {}, uuid: {}]\n"`
`" * constructor (ctor/copy/move) : {:>5} ({}/{}/{})\n"`
`" * assign (copy/move)           : {:>5} ({}/{})\n"`
`" * destructor (alive)           : {:>5} ({})\n"`. -/
def counter_fmt_ : String :=
  "Lifecycle tracker [type: \x7b\x7d, uuid: \x7b\x7d]\n * constructor (ctor/copy/move) : \x7b:>5\x7d (\x7b\x7d/\x7b\x7d/\x7b\x7d)\n * assign (copy/move)           : \x7b:>5\x7d (\x7b\x7d/\x7b\x7d)\n * destructor (alive)           : \x7b:>5\x7d (\x7b\x7d)\n"

/-- The function `log_counters_format()`. -/
def log_counters_format : String :=
  counter_fmt_

/-- The function `lifecycle_default_logger<T, Uuid>::print_counters(cnts, type_name)`. -/
def print_counters (Uuid : Nat) (cnts : lifecycle_counters) (type_name : String) :
    List fmt.piece :=
  fmt.print log_counters_format
    [fmt.arg.str type_name, fmt.arg.size Uuid, fmt.arg.size cnts.total_constructed,
      fmt.arg.size cnts.constructor, fmt.arg.size cnts.copy_constructor,
      fmt.arg.size cnts.move_constructor, fmt.arg.size cnts.total_assigned,
      fmt.arg.size cnts.copy_assignment, fmt.arg.size cnts.move_assignment,
      fmt.arg.size cnts.destructor, fmt.arg.diff cnts.alive]

end lifecycle_default_logger

/-! ## Exception specifications and container relocation -/

/-- The move constructor `lifecycle_tracker_base(lifecycle_tracker_base&&)` is declared
without `noexcept`. -/
def intl.lifecycle_tracker_base.move_ctor_noexcept : Bool := false

/-- The move constructor `lifecycle_tracker_mt_base(lifecycle_tracker_mt_base&&)
noexcept` is declared `noexcept`. -/
def intl.lifecycle_tracker_mt_base.move_ctor_noexcept : Bool := true

/-- The trait `std::is_nothrow_move_constructible<lifecycle_tracker<T, Uuid>>`: the
implicit move constructor of the wrapper is `noexcept` exactly when the move
constructors of both bases, `T` and the tracker base, are. -/
def lifecycle_tracker.nothrow_move_constructible (t_nothrow_move : Bool) : Bool :=
  t_nothrow_move && intl.lifecycle_tracker_base.move_ctor_noexcept

/-- The trait `std::is_nothrow_move_constructible<lifecycle_tracker_mt<T, Uuid>>`. -/
def lifecycle_tracker_mt.nothrow_move_constructible (t_nothrow_move : Bool) : Bool :=
  t_nothrow_move && intl.lifecycle_tracker_mt_base.move_ctor_noexcept

/-- The C++ standard library rule `std::move_if_noexcept`, which `std::vector` uses to
transfer elements when it reallocates: an element is moved when its type is
nothrow-move-constructible or not copy-constructible, and copied otherwise. -/
def move_if_noexcept_moves (nothrow_move copy_constructible : Bool) : Bool :=
  nothrow_move || !copy_constructible

/-- The lifecycle events of a `std::vector` reallocation: each element, at the old
address `p.1`, is transferred to its new address `p.2` by a move construction (when
`moves`) or a copy construction; then the old elements are destroyed. -/
def vector_reallocate {T : Type} (moves : Bool) (elems : List (Addr × Addr)) :
    List (operation T) :=
  elems.map (fun p =>
      if moves then operation.move_construct p.2 p.1 else operation.copy_construct p.2 p.1) ++
    elems.map (fun p => operation.destroy p.1)

/-! ## Counter slots -/

section slots

open intl

theorem get_set_counter_same (e : lifecycle_event) (c : lifecycle_counters) (n : Nat) :
    lifecycle_tracker_base.get_counter e (lifecycle_tracker_base.set_counter e c n) = n := by
  cases e <;> rfl

theorem get_set_counter_other {e e' : lifecycle_event} (h : e' ≠ e) (c : lifecycle_counters)
    (n : Nat) :
    lifecycle_tracker_base.get_counter e' (lifecycle_tracker_base.set_counter e c n) =
      lifecycle_tracker_base.get_counter e' c := by
  cases e <;> cases e' <;> first | rfl | exact absurd rfl h

theorem get_set_counter (e e' : lifecycle_event) (c : lifecycle_counters) (n : Nat) :
    lifecycle_tracker_base.get_counter e' (lifecycle_tracker_base.set_counter e c n) =
      if e' = e then n else lifecycle_tracker_base.get_counter e' c := by
  by_cases h : e' = e
  · subst h; simp [get_set_counter_same]
  · simp [h, get_set_counter_other h]

theorem index_injective {e e' : lifecycle_event} (h : e.index = e'.index) : e = e' := by
  cases e <;> cases e' <;> first | rfl | exact absurd h (by decide)

theorem get_store_counter (e e' : lifecycle_event) (c : lifecycle_tracker_mt_base.cells)
    (n : Nat) :
    lifecycle_tracker_mt_base.get_counter e' (lifecycle_tracker_mt_base.store_counter e c n) =
      if e' = e then n else lifecycle_tracker_mt_base.get_counter e' c := by
  unfold lifecycle_tracker_mt_base.get_counter lifecycle_tracker_mt_base.store_counter
  by_cases h : e' = e
  · subst h; simp
  · have hi : e'.index ≠ e.index := fun hh => h (index_injective hh)
    simp [h, Function.update_noteq hi]

/-- Reading a slot of the snapshot is loading the cell of that slot. -/
theorem mt_snapshot_slot {T : Type} (e : lifecycle_event)
    (s : state lifecycle_tracker_mt_base.cells T) :
    lifecycle_tracker_base.get_counter e (lifecycle_tracker_mt_base.get_counters s) =
      lifecycle_tracker_mt_base.get_counter e s.counters_ := by
  cases e <;> rfl

theorem counters_ext {c c' : lifecycle_counters}
    (h : ∀ e, lifecycle_tracker_base.get_counter e c = lifecycle_tracker_base.get_counter e c') :
    c = c' := by
  have h1 := h .Constructor
  have h2 := h .CopyConstructor
  have h3 := h .MoveConstructor
  have h4 := h .CopyAssignment
  have h5 := h .MoveAssignment
  have h6 := h .Destructor
  simp only [lifecycle_tracker_base.get_counter] at h1 h2 h3 h4 h5 h6
  cases c; cases c'
  simp_all

theorem mt_reset_snapshot {T : Type} (m : state lifecycle_tracker_mt_base.cells T) :
    lifecycle_tracker_mt_base.get_counters (lifecycle_tracker_mt_base.reset_counters m) =
      ⟨0, 0, 0, 0, 0, 0⟩ := by
  simp [lifecycle_tracker_mt_base.get_counters, lifecycle_tracker_mt_base.reset_counters,
    lifecycle_tracker_mt_base.get_counter, lifecycle_tracker_mt_base.store_counter,
    lifecycle_event.index, Function.update]

end slots

/-! ## One event: counters, store and trace -/

section serial_step

open intl

variable {T : Type} [wrapped T]

theorem get_type_name_counters (s : state lifecycle_counters T) :
    (lifecycle_tracker_base.get_type_name s).2.counters_ = s.counters_ := by
  unfold lifecycle_tracker_base.get_type_name
  by_cases h : s.type_name_ = ""
  · by_cases h2 : s.demangler_type_name_ = "" <;>
      simp [h, h2, lifecycle_tracker_base.set_type_name, demangler.get, demangler.set_default_]
  · simp [h]

theorem get_type_name_objects (s : state lifecycle_counters T) :
    (lifecycle_tracker_base.get_type_name s).2.objects = s.objects := by
  unfold lifecycle_tracker_base.get_type_name
  by_cases h : s.type_name_ = ""
  · by_cases h2 : s.demangler_type_name_ = "" <;>
      simp [h, h2, lifecycle_tracker_base.set_type_name, demangler.get, demangler.set_default_]
  · simp [h]

theorem get_type_name_trace (s : state lifecycle_counters T) :
    (lifecycle_tracker_base.get_type_name s).2.trace = s.trace := by
  unfold lifecycle_tracker_base.get_type_name
  by_cases h : s.type_name_ = ""
  · by_cases h2 : s.demangler_type_name_ = "" <;>
      simp [h, h2, lifecycle_tracker_base.set_type_name, demangler.get, demangler.set_default_]
  · simp [h]

theorem log_and_increment_counters (e : lifecycle_event) (self : Addr)
    (s : state lifecycle_counters T) :
    (lifecycle_tracker_base.log_and_increment e self s).counters_ =
      lifecycle_tracker_base.set_counter e s.counters_
        ((lifecycle_tracker_base.get_counter e s.counters_ + 1) % SIZE_MOD) := by
  simp [lifecycle_tracker_base.log_and_increment, state.emit, get_type_name_counters,
    lifecycle_tracker_base.increment]

theorem log_and_increment_objects (e : lifecycle_event) (self : Addr)
    (s : state lifecycle_counters T) :
    (lifecycle_tracker_base.log_and_increment e self s).objects = s.objects := by
  simp [lifecycle_tracker_base.log_and_increment, state.emit, get_type_name_objects,
    lifecycle_tracker_base.increment]

theorem log_and_increment_trace (e : lifecycle_event) (self : Addr)
    (s : state lifecycle_counters T) :
    (lifecycle_tracker_base.log_and_increment e self s).trace =
      s.trace ++ [effect.increment e,
        effect.log_event e (s.objects.value_at self)
          (lifecycle_tracker_base.get_type_name (lifecycle_tracker_base.increment e s)).1] := by
  simp [lifecycle_tracker_base.log_and_increment, state.emit, get_type_name_objects,
    get_type_name_trace, lifecycle_tracker_base.increment]

theorem apply_counters (o : operation T) (s : state lifecycle_counters T) :
    (lifecycle_tracker.apply o s).counters_ =
      if o.self_assignment then s.counters_
      else lifecycle_tracker_base.set_counter o.kind s.counters_
        ((lifecycle_tracker_base.get_counter o.kind s.counters_ + 1) % SIZE_MOD) := by
  cases o with
  | construct a v =>
    simp [lifecycle_tracker.apply, lifecycle_tracker_base.ctor, log_and_increment_counters,
      state.value_op, operation.self_assignment, operation.kind]
  | copy_construct a b =>
    simp [lifecycle_tracker.apply, lifecycle_tracker_base.copy_ctor,
      log_and_increment_counters, state.value_op, operation.self_assignment, operation.kind]
  | move_construct a b =>
    simp [lifecycle_tracker.apply, lifecycle_tracker_base.move_ctor,
      log_and_increment_counters, state.value_op, operation.self_assignment, operation.kind]
  | copy_assign a b =>
    by_cases h : a = b <;>
    simp [lifecycle_tracker.apply, lifecycle_tracker_base.copy_assign,
      log_and_increment_counters, state.value_op, operation.self_assignment, operation.kind, h]
  | move_assign a b =>
    by_cases h : a = b <;>
    simp [lifecycle_tracker.apply, lifecycle_tracker_base.move_assign,
      log_and_increment_counters, state.value_op, operation.self_assignment, operation.kind, h]
  | destroy a =>
    simp [lifecycle_tracker.apply, lifecycle_tracker_base.dtor, log_and_increment_counters,
      state.value_op, operation.self_assignment, operation.kind]

end serial_step

section serial_store

open intl

variable {T : Type} [wrapped T]

theorem apply_objects (o : operation T) (s : state lifecycle_counters T) :
    (lifecycle_tracker.apply o s).objects = o.on_store s.objects := by
  cases o with
  | construct a v =>
    simp [lifecycle_tracker.apply, lifecycle_tracker_base.ctor, log_and_increment_objects,
      state.value_op, operation.on_store]
  | copy_construct a b =>
    simp [lifecycle_tracker.apply, lifecycle_tracker_base.copy_ctor,
      log_and_increment_objects, state.value_op, operation.on_store]
  | move_construct a b =>
    simp [lifecycle_tracker.apply, lifecycle_tracker_base.move_ctor,
      log_and_increment_objects, state.value_op, operation.on_store]
  | copy_assign a b =>
    by_cases h : a = b <;>
    simp [lifecycle_tracker.apply, lifecycle_tracker_base.copy_assign,
      log_and_increment_objects, state.value_op, operation.on_store, h]
  | move_assign a b =>
    by_cases h : a = b <;>
    simp [lifecycle_tracker.apply, lifecycle_tracker_base.move_assign,
      log_and_increment_objects, state.value_op, operation.on_store, h]
  | destroy a =>
    simp [lifecycle_tracker.apply, lifecycle_tracker_base.dtor, log_and_increment_objects,
      state.value_op, operation.on_store]

theorem run_cons (o : operation T) (os : List (operation T))
    (s : state lifecycle_counters T) :
    lifecycle_tracker.run (o :: os) s = lifecycle_tracker.run os (lifecycle_tracker.apply o s) :=
  rfl

theorem run_append (os os' : List (operation T)) (s : state lifecycle_counters T) :
    lifecycle_tracker.run (os ++ os') s =
      lifecycle_tracker.run os' (lifecycle_tracker.run os s) := by
  simp [lifecycle_tracker.run]

/-- After a sequence of events, a slot holds what it held before plus the number of
counted events of its kind, reduced modulo `SIZE_MOD`. -/
theorem run_counter (e : lifecycle_event) (os : List (operation T)) :
    ∀ s : state lifecycle_counters T,
      lifecycle_tracker_base.get_counter e s.counters_ < SIZE_MOD →
      lifecycle_tracker_base.get_counter e (lifecycle_tracker.run os s).counters_ =
        (lifecycle_tracker_base.get_counter e s.counters_ +
          os.countP (operation.counted e)) % SIZE_MOD := by
  induction os with
  | nil =>
    intro s hs
    simp [lifecycle_tracker.run, Nat.mod_eq_of_lt hs]
  | cons o os ih =>
    intro s hs
    rw [run_cons, List.countP_cons]
    have hM : 0 < SIZE_MOD := by simp [SIZE_MOD]
    by_cases hc : operation.counted e o = true
    · have hk : o.kind = e := by
        simp [operation.counted] at hc; exact hc.1
      have hsa : o.self_assignment = false := by
        simp [operation.counted] at hc; exact hc.2
      have h1 : lifecycle_tracker_base.get_counter e (lifecycle_tracker.apply o s).counters_ =
          (lifecycle_tracker_base.get_counter e s.counters_ + 1) % SIZE_MOD := by
        rw [apply_counters, hsa, hk]; simp [get_set_counter_same]
      rw [ih _ (by rw [h1]; exact Nat.mod_lt _ hM), h1, if_pos hc, Nat.mod_add_mod]
      congr 1
      omega
    · have h1 : lifecycle_tracker_base.get_counter e (lifecycle_tracker.apply o s).counters_ =
          lifecycle_tracker_base.get_counter e s.counters_ := by
        rw [apply_counters]
        by_cases hsa : o.self_assignment = true
        · simp [hsa]
        · have hk : o.kind ≠ e := by
            intro hk; apply hc; simp [operation.counted, hk] at hsa ⊢; exact hsa
          simp [hsa, get_set_counter_other (Ne.symm hk)]
      rw [ih _ (by rw [h1]; exact hs), h1, if_neg hc]
      simp

end serial_store

section counting

open intl

variable {T : Type}

theorem counted_eq_kind_of_not_self (e : lifecycle_event) (os : List (operation T))
    (hns : ∀ o ∈ os, o.self_assignment = false) :
    os.countP (operation.counted e) = occurrences e os := by
  unfold occurrences
  apply List.countP_congr
  intro o ho
  simp [operation.counted, hns o ho]

theorem occurrences_cons (e : lifecycle_event) (o : operation T) (os : List (operation T)) :
    occurrences e (o :: os) = occurrences e os + if o.kind = e then 1 else 0 := by
  simp [occurrences, List.countP_cons]

theorem occurrences_append (e : lifecycle_event) (pre t : List (operation T)) :
    occurrences e (pre ++ t) = occurrences e pre + occurrences e t := by
  simp [occurrences, List.countP_append]

theorem occurrences_le_length (e : lifecycle_event) (os : List (operation T)) :
    occurrences e os ≤ os.length :=
  List.countP_le_length _

/-- Every event has exactly one of the six kinds. -/
theorem occurrences_sum (os : List (operation T)) :
    occurrences .Constructor os + occurrences .CopyConstructor os +
      occurrences .MoveConstructor os + occurrences .CopyAssignment os +
      occurrences .MoveAssignment os + occurrences .Destructor os = os.length := by
  induction os with
  | nil => simp [occurrences]
  | cons o os ih =>
    simp only [occurrences_cons, List.length_cons]
    cases o <;> simp [operation.kind] <;> omega

theorem reset_counter_zero (e : lifecycle_event) (s : state lifecycle_counters T) :
    lifecycle_tracker_base.get_counter e (lifecycle_tracker_base.reset_counters s).counters_ =
      0 := by
  cases e <;> rfl

theorem churn_occurrences_constructor (v : T) (n : Nat) :
    occurrences .Constructor (churn v n) = n := by
  induction n with
  | zero => simp [churn, occurrences]
  | succ n ih => simp [churn, occurrences_cons, operation.kind, ih]

theorem churn_occurrences_destructor (v : T) (n : Nat) :
    occurrences .Destructor (churn v n) = n := by
  induction n with
  | zero => simp [churn, occurrences]
  | succ n ih => simp [churn, occurrences_cons, operation.kind, ih]

theorem churn_occurrences_other (v : T) (n : Nat) (e : lifecycle_event)
    (h1 : e ≠ .Constructor) (h2 : e ≠ .Destructor) :
    occurrences e (churn v n) = 0 := by
  induction n with
  | zero => simp [churn, occurrences]
  | succ n ih =>
    simp [churn, occurrences_cons, operation.kind, ih, Ne.symm h1, Ne.symm h2]

theorem churn_not_self (v : T) (n : Nat) :
    ∀ o ∈ churn v n, o.self_assignment = false := by
  induction n with
  | zero => simp [churn]
  | succ n ih =>
    intro o ho
    simp only [churn, List.mem_cons] at ho
    rcases ho with h | h | h
    · subst h; rfl
    · subst h; rfl
    · exact ih o h

theorem churn_well_formed [wrapped T] (v : T) (n : Nat) (h : store T)
    (h0 : h.value_at 0 = none) : well_formed (churn v n) h = true := by
  induction n with
  | zero => simp [churn, well_formed]
  | succ n ih =>
    have hback : (operation.destroy 0 : operation T).on_store
        ((operation.construct 0 v).on_store h) = h := by
      simp [operation.on_store, store.construct, store.destroy, List.eraseP_cons]
    simp [churn, well_formed, operation.allowed, h0, hback, ih]
    simp [operation.on_store, store.construct, store.value_at]

theorem SIZE_MOD_pos : 0 < SIZE_MOD := by
  simp [SIZE_MOD]

/-- The slots `constructor` and `destructor` after `n` rounds of `churn` from reset
counters. -/
theorem churn_constructor_slot [wrapped T] (v : T) (n : Nat)
    (s0 : state lifecycle_counters T) :
    (lifecycle_tracker_base.get_counters
      (lifecycle_tracker.run (churn v n)
        (lifecycle_tracker_base.reset_counters s0))).constructor = n % SIZE_MOD := by
  have h := run_counter .Constructor (churn v n) (lifecycle_tracker_base.reset_counters s0)
    (by rw [reset_counter_zero]; exact SIZE_MOD_pos)
  rw [counted_eq_kind_of_not_self _ _ (churn_not_self _ _), churn_occurrences_constructor,
    reset_counter_zero, Nat.zero_add] at h
  exact h

end counting

/-! ## C1 -/

/-- C1, as stated, fails: after the loop `churn` has constructed and destroyed one
`MyInt` instance `2 ^ 64` times from reset counters (a history with no assignment at
all), the `constructor` slot holds 0 and not the number of construction events. -/
theorem serial_slot_differs_from_event_count_after_wrap :
    (∀ o ∈ churn (MyInt.mk 1) SIZE_MOD, o.self_assignment = false) ∧
    well_formed (churn (MyInt.mk 1) SIZE_MOD) [] = true ∧
    (intl.lifecycle_tracker_base.get_counters
      (lifecycle_tracker.run (churn (MyInt.mk 1) SIZE_MOD)
        (intl.lifecycle_tracker_base.reset_counters (start MyInt)))).constructor ≠
      occurrences .Constructor (churn (MyInt.mk 1) SIZE_MOD) := by
  refine ⟨churn_not_self _ _, churn_well_formed _ _ _ rfl, ?_⟩
  rw [churn_constructor_slot, churn_occurrences_constructor, Nat.mod_self]
  exact Nat.ne_of_lt SIZE_MOD_pos

/-- C1, amended: for every finite sequence of lifecycle events on serial tracker
instances that starts from reset counters and has no self-assignment, each of the six
slots of `get_counters()` equals the number of events of its kind modulo `2 ^ 64`;
a slot equals that number exactly when the kind occurs fewer than `2 ^ 64` times, and
the six slots sum to the length of a sequence shorter than `2 ^ 64`. -/
theorem serial_slots_count_events {T : Type} [wrapped T] (os : List (operation T))
    (s0 : state lifecycle_counters T) (hns : ∀ o ∈ os, o.self_assignment = false) :
    (∀ e, intl.lifecycle_tracker_base.get_counter e
        (intl.lifecycle_tracker_base.get_counters
          (lifecycle_tracker.run os (intl.lifecycle_tracker_base.reset_counters s0))) =
        occurrences e os % SIZE_MOD) ∧
    (∀ e, occurrences e os < SIZE_MOD →
      intl.lifecycle_tracker_base.get_counter e
        (intl.lifecycle_tracker_base.get_counters
          (lifecycle_tracker.run os (intl.lifecycle_tracker_base.reset_counters s0))) =
        occurrences e os) ∧
    (os.length < SIZE_MOD →
      (intl.lifecycle_tracker_base.get_counters
        (lifecycle_tracker.run os (intl.lifecycle_tracker_base.reset_counters s0))).constructor +
      (intl.lifecycle_tracker_base.get_counters
        (lifecycle_tracker.run os
          (intl.lifecycle_tracker_base.reset_counters s0))).copy_constructor +
      (intl.lifecycle_tracker_base.get_counters
        (lifecycle_tracker.run os
          (intl.lifecycle_tracker_base.reset_counters s0))).move_constructor +
      (intl.lifecycle_tracker_base.get_counters
        (lifecycle_tracker.run os
          (intl.lifecycle_tracker_base.reset_counters s0))).copy_assignment +
      (intl.lifecycle_tracker_base.get_counters
        (lifecycle_tracker.run os
          (intl.lifecycle_tracker_base.reset_counters s0))).move_assignment +
      (intl.lifecycle_tracker_base.get_counters
        (lifecycle_tracker.run os (intl.lifecycle_tracker_base.reset_counters s0))).destructor =
      os.length) := by
  have key : ∀ e, intl.lifecycle_tracker_base.get_counter e
      (intl.lifecycle_tracker_base.get_counters
        (lifecycle_tracker.run os (intl.lifecycle_tracker_base.reset_counters s0))) =
      occurrences e os % SIZE_MOD := by
    intro e
    have h := run_counter e os (intl.lifecycle_tracker_base.reset_counters s0)
      (by rw [reset_counter_zero]; simp [SIZE_MOD])
    rw [counted_eq_kind_of_not_self e os hns, reset_counter_zero, Nat.zero_add] at h
    exact h
  refine ⟨key, ?_, ?_⟩
  · intro e he
    rw [key e, Nat.mod_eq_of_lt he]
  · intro hlen
    have hk : ∀ e, intl.lifecycle_tracker_base.get_counter e
        (intl.lifecycle_tracker_base.get_counters
          (lifecycle_tracker.run os (intl.lifecycle_tracker_base.reset_counters s0))) =
        occurrences e os := by
      intro e
      rw [key e, Nat.mod_eq_of_lt (lt_of_le_of_lt (occurrences_le_length e os) hlen)]
    have h1 := hk .Constructor
    have h2 := hk .CopyConstructor
    have h3 := hk .MoveConstructor
    have h4 := hk .CopyAssignment
    have h5 := hk .MoveAssignment
    have h6 := hk .Destructor
    simp only [intl.lifecycle_tracker_base.get_counter] at h1 h2 h3 h4 h5 h6
    rw [h1, h2, h3, h4, h5, h6]
    exact occurrences_sum os

/-- C1, amended, at `sample_history` from the start state. -/
theorem serial_slots_count_events_witness :
    (∀ o ∈ sample_history, o.self_assignment = false) ∧
    (∀ e, intl.lifecycle_tracker_base.get_counter e
        (intl.lifecycle_tracker_base.get_counters
          (lifecycle_tracker.run sample_history
            (intl.lifecycle_tracker_base.reset_counters (start MyInt)))) =
        occurrences e sample_history % SIZE_MOD) :=
  ⟨by decide, (serial_slots_count_events sample_history (start MyInt) (by decide)).1⟩

/-! ## One event on the concurrent tracker -/

section mt_step

open intl

variable {T : Type} [wrapped T]

theorem mt_get_type_name_counters (s : state lifecycle_tracker_mt_base.cells T) :
    (lifecycle_tracker_mt_base.get_type_name s).2.counters_ = s.counters_ := by
  unfold lifecycle_tracker_mt_base.get_type_name
  by_cases h : s.type_name_ = ""
  · by_cases h2 : s.demangler_type_name_ = "" <;>
      simp [h, h2, lifecycle_tracker_mt_base.set_type_name, demangler.get,
        demangler.set_default_]
  · simp [h]

theorem mt_get_type_name_objects (s : state lifecycle_tracker_mt_base.cells T) :
    (lifecycle_tracker_mt_base.get_type_name s).2.objects = s.objects := by
  unfold lifecycle_tracker_mt_base.get_type_name
  by_cases h : s.type_name_ = ""
  · by_cases h2 : s.demangler_type_name_ = "" <;>
      simp [h, h2, lifecycle_tracker_mt_base.set_type_name, demangler.get,
        demangler.set_default_]
  · simp [h]

theorem mt_get_type_name_trace (s : state lifecycle_tracker_mt_base.cells T) :
    (lifecycle_tracker_mt_base.get_type_name s).2.trace = s.trace := by
  unfold lifecycle_tracker_mt_base.get_type_name
  by_cases h : s.type_name_ = ""
  · by_cases h2 : s.demangler_type_name_ = "" <;>
      simp [h, h2, lifecycle_tracker_mt_base.set_type_name, demangler.get,
        demangler.set_default_]
  · simp [h]

theorem mt_log_and_increment_counters (e : lifecycle_event) (self : Addr)
    (s : state lifecycle_tracker_mt_base.cells T) :
    (lifecycle_tracker_mt_base.log_and_increment e self s).counters_ =
      lifecycle_tracker_mt_base.store_counter e s.counters_
        ((lifecycle_tracker_mt_base.get_counter e s.counters_ + 1) % SIZE_MOD) := by
  simp [lifecycle_tracker_mt_base.log_and_increment, state.emit, mt_get_type_name_counters,
    lifecycle_tracker_mt_base.fetch_add]

theorem mt_log_and_increment_objects (e : lifecycle_event) (self : Addr)
    (s : state lifecycle_tracker_mt_base.cells T) :
    (lifecycle_tracker_mt_base.log_and_increment e self s).objects = s.objects := by
  simp [lifecycle_tracker_mt_base.log_and_increment, state.emit, mt_get_type_name_objects,
    lifecycle_tracker_mt_base.fetch_add]

theorem mt_log_and_increment_trace (e : lifecycle_event) (self : Addr)
    (s : state lifecycle_tracker_mt_base.cells T) :
    (lifecycle_tracker_mt_base.log_and_increment e self s).trace =
      s.trace ++ [effect.increment e,
        effect.log_event e (s.objects.value_at self)
          (lifecycle_tracker_mt_base.get_type_name
            (lifecycle_tracker_mt_base.fetch_add e s)).1] := by
  simp [lifecycle_tracker_mt_base.log_and_increment, state.emit, mt_get_type_name_objects,
    mt_get_type_name_trace, lifecycle_tracker_mt_base.fetch_add]

theorem mt_apply_counters (o : operation T) (s : state lifecycle_tracker_mt_base.cells T) :
    (lifecycle_tracker_mt.apply o s).counters_ =
      if o.self_assignment then s.counters_
      else lifecycle_tracker_mt_base.store_counter o.kind s.counters_
        ((lifecycle_tracker_mt_base.get_counter o.kind s.counters_ + 1) % SIZE_MOD) := by
  cases o with
  | construct a v =>
    simp [lifecycle_tracker_mt.apply, lifecycle_tracker_mt_base.ctor,
      mt_log_and_increment_counters, state.value_op, operation.self_assignment, operation.kind]
  | copy_construct a b =>
    simp [lifecycle_tracker_mt.apply, lifecycle_tracker_mt_base.copy_ctor,
      mt_log_and_increment_counters, state.value_op, operation.self_assignment, operation.kind]
  | move_construct a b =>
    simp [lifecycle_tracker_mt.apply, lifecycle_tracker_mt_base.move_ctor,
      mt_log_and_increment_counters, state.value_op, operation.self_assignment, operation.kind]
  | copy_assign a b =>
    by_cases h : a = b <;>
    simp [lifecycle_tracker_mt.apply, lifecycle_tracker_mt_base.copy_assign,
      mt_log_and_increment_counters, state.value_op, operation.self_assignment,
      operation.kind, h]
  | move_assign a b =>
    by_cases h : a = b <;>
    simp [lifecycle_tracker_mt.apply, lifecycle_tracker_mt_base.move_assign,
      mt_log_and_increment_counters, state.value_op, operation.self_assignment,
      operation.kind, h]
  | destroy a =>
    simp [lifecycle_tracker_mt.apply, lifecycle_tracker_mt_base.dtor,
      mt_log_and_increment_counters, state.value_op, operation.self_assignment, operation.kind]

theorem mt_apply_objects (o : operation T) (s : state lifecycle_tracker_mt_base.cells T) :
    (lifecycle_tracker_mt.apply o s).objects = o.on_store s.objects := by
  cases o with
  | construct a v =>
    simp [lifecycle_tracker_mt.apply, lifecycle_tracker_mt_base.ctor,
      mt_log_and_increment_objects, state.value_op, operation.on_store]
  | copy_construct a b =>
    simp [lifecycle_tracker_mt.apply, lifecycle_tracker_mt_base.copy_ctor,
      mt_log_and_increment_objects, state.value_op, operation.on_store]
  | move_construct a b =>
    simp [lifecycle_tracker_mt.apply, lifecycle_tracker_mt_base.move_ctor,
      mt_log_and_increment_objects, state.value_op, operation.on_store]
  | copy_assign a b =>
    by_cases h : a = b <;>
    simp [lifecycle_tracker_mt.apply, lifecycle_tracker_mt_base.copy_assign,
      mt_log_and_increment_objects, state.value_op, operation.on_store, h]
  | move_assign a b =>
    by_cases h : a = b <;>
    simp [lifecycle_tracker_mt.apply, lifecycle_tracker_mt_base.move_assign,
      mt_log_and_increment_objects, state.value_op, operation.on_store, h]
  | destroy a =>
    simp [lifecycle_tracker_mt.apply, lifecycle_tracker_mt_base.dtor,
      mt_log_and_increment_objects, state.value_op, operation.on_store]

/-- The snapshot after one event on the concurrent tracker, from the snapshot before. -/
theorem mt_apply_snapshot (o : operation T) (s : state lifecycle_tracker_mt_base.cells T) :
    lifecycle_tracker_mt_base.get_counters (lifecycle_tracker_mt.apply o s) =
      if o.self_assignment then lifecycle_tracker_mt_base.get_counters s
      else lifecycle_tracker_base.set_counter o.kind (lifecycle_tracker_mt_base.get_counters s)
        ((lifecycle_tracker_base.get_counter o.kind (lifecycle_tracker_mt_base.get_counters s)
          + 1) % SIZE_MOD) := by
  by_cases hsa : o.self_assignment = true
  · have hc := mt_apply_counters o s
    rw [if_pos hsa] at hc
    rw [if_pos hsa]
    simp [lifecycle_tracker_mt_base.get_counters, hc]
  · rw [if_neg hsa]
    apply counters_ext
    intro e
    have hc := mt_apply_counters o s
    rw [if_neg hsa] at hc
    rw [mt_snapshot_slot, hc, get_store_counter, get_set_counter, mt_snapshot_slot,
      mt_snapshot_slot]

end mt_step

/-! ## The trace of one event -/

section traces

open intl

variable {T : Type} [wrapped T]

theorem get_type_name_fst_congr (s s' : state lifecycle_counters T)
    (h1 : s.type_name_ = s'.type_name_)
    (h2 : s.demangler_type_name_ = s'.demangler_type_name_) :
    (lifecycle_tracker_base.get_type_name s).1 =
      (lifecycle_tracker_base.get_type_name s').1 := by
  unfold lifecycle_tracker_base.get_type_name
  by_cases h : s'.type_name_ = ""
  · by_cases h' : s'.demangler_type_name_ = "" <;>
      simp [h, h', h1, h2, lifecycle_tracker_base.set_type_name, demangler.get,
        demangler.set_default_]
  · simp [h, h1]

theorem mt_get_type_name_fst_congr (s s' : state lifecycle_tracker_mt_base.cells T)
    (h1 : s.type_name_ = s'.type_name_)
    (h2 : s.demangler_type_name_ = s'.demangler_type_name_) :
    (lifecycle_tracker_mt_base.get_type_name s).1 =
      (lifecycle_tracker_mt_base.get_type_name s').1 := by
  unfold lifecycle_tracker_mt_base.get_type_name
  by_cases h : s'.type_name_ = ""
  · by_cases h' : s'.demangler_type_name_ = "" <;>
      simp [h, h', h1, h2, lifecycle_tracker_mt_base.set_type_name, demangler.get,
        demangler.set_default_]
  · simp [h, h1]

/-- The trace of `log_and_increment`, with the name as `get_type_name()` returns it in
the state before. -/
theorem log_and_increment_trace_name (e : lifecycle_event) (self : Addr)
    (s : state lifecycle_counters T) :
    (lifecycle_tracker_base.log_and_increment e self s).trace =
      s.trace ++ [effect.increment e,
        effect.log_event e (s.objects.value_at self)
          (lifecycle_tracker_base.get_type_name s).1] := by
  rw [log_and_increment_trace,
    get_type_name_fst_congr (lifecycle_tracker_base.increment e s) s rfl rfl]

theorem mt_log_and_increment_trace_name (e : lifecycle_event) (self : Addr)
    (s : state lifecycle_tracker_mt_base.cells T) :
    (lifecycle_tracker_mt_base.log_and_increment e self s).trace =
      s.trace ++ [effect.increment e,
        effect.log_event e (s.objects.value_at self)
          (lifecycle_tracker_mt_base.get_type_name s).1] := by
  rw [mt_log_and_increment_trace,
    mt_get_type_name_fst_congr (lifecycle_tracker_mt_base.fetch_add e s) s rfl rfl]

/-- A self-assignment runs the assignment of `T` and nothing else. -/
theorem apply_trace_self (o : operation T) (s : state lifecycle_counters T)
    (h : o.self_assignment = true) :
    (lifecycle_tracker.apply o s).trace = s.trace ++ [effect.value_op o.kind o.self] := by
  cases o with
  | copy_assign a b =>
    have hab : a = b := by simpa [operation.self_assignment] using h
    simp [lifecycle_tracker.apply, lifecycle_tracker_base.copy_assign, state.value_op,
      operation.kind, operation.self, hab]
  | move_assign a b =>
    have hab : a = b := by simpa [operation.self_assignment] using h
    simp [lifecycle_tracker.apply, lifecycle_tracker_base.move_assign, state.value_op,
      operation.kind, operation.self, hab]
  | _ => simp [operation.self_assignment] at h

/-- Destruction: the base destructor counts and logs, then `~T()` runs. -/
theorem apply_trace_destroy (a : Addr) (s : state lifecycle_counters T) :
    (lifecycle_tracker.apply (operation.destroy a) s).trace =
      s.trace ++ [effect.increment .Destructor,
        effect.log_event .Destructor (s.objects.value_at a)
          (lifecycle_tracker_base.get_type_name s).1,
        effect.value_op .Destructor a] := by
  simp [lifecycle_tracker.apply, lifecycle_tracker_base.dtor, state.value_op,
    log_and_increment_trace_name]

/-- Every other counted event: the operation of `T` runs, then the base counts and
logs the value the instance now holds. -/
theorem apply_trace_counted (o : operation T) (s : state lifecycle_counters T)
    (h : o.self_assignment = false) (hd : o.kind ≠ .Destructor) :
    (lifecycle_tracker.apply o s).trace =
      s.trace ++ [effect.value_op o.kind o.self, effect.increment o.kind,
        effect.log_event o.kind ((o.on_store s.objects).value_at o.self)
          (lifecycle_tracker_base.get_type_name s).1] := by
  cases o with
  | construct a v =>
    simp only [lifecycle_tracker.apply, lifecycle_tracker_base.ctor,
      log_and_increment_trace_name, operation.kind, operation.self, operation.on_store]
    rw [get_type_name_fst_congr (s.value_op .Constructor a _) s rfl rfl]
    simp [state.value_op]
  | copy_construct a b =>
    simp only [lifecycle_tracker.apply, lifecycle_tracker_base.copy_ctor,
      log_and_increment_trace_name, operation.kind, operation.self, operation.on_store]
    rw [get_type_name_fst_congr (s.value_op .CopyConstructor a _) s rfl rfl]
    simp [state.value_op]
  | move_construct a b =>
    simp only [lifecycle_tracker.apply, lifecycle_tracker_base.move_ctor,
      log_and_increment_trace_name, operation.kind, operation.self, operation.on_store]
    rw [get_type_name_fst_congr (s.value_op .MoveConstructor a _) s rfl rfl]
    simp [state.value_op]
  | copy_assign a b =>
    have hab : a ≠ b := by simpa [operation.self_assignment] using h
    simp only [lifecycle_tracker.apply, lifecycle_tracker_base.copy_assign, if_pos hab,
      log_and_increment_trace_name, operation.kind, operation.self, operation.on_store, ne_eq,
      not_false_eq_true]
    rw [get_type_name_fst_congr (s.value_op .CopyAssignment a _) s rfl rfl]
    simp [state.value_op]
  | move_assign a b =>
    have hab : a ≠ b := by simpa [operation.self_assignment] using h
    simp only [lifecycle_tracker.apply, lifecycle_tracker_base.move_assign, if_pos hab,
      log_and_increment_trace_name, operation.kind, operation.self, operation.on_store, ne_eq,
      not_false_eq_true]
    rw [get_type_name_fst_congr (s.value_op .MoveAssignment a _) s rfl rfl]
    simp [state.value_op]
  | destroy a => exact absurd rfl hd

theorem mt_apply_trace_self (o : operation T) (s : state lifecycle_tracker_mt_base.cells T)
    (h : o.self_assignment = true) :
    (lifecycle_tracker_mt.apply o s).trace = s.trace ++ [effect.value_op o.kind o.self] := by
  cases o with
  | copy_assign a b =>
    have hab : a = b := by simpa [operation.self_assignment] using h
    simp [lifecycle_tracker_mt.apply, lifecycle_tracker_mt_base.copy_assign, state.value_op,
      operation.kind, operation.self, hab]
  | move_assign a b =>
    have hab : a = b := by simpa [operation.self_assignment] using h
    simp [lifecycle_tracker_mt.apply, lifecycle_tracker_mt_base.move_assign, state.value_op,
      operation.kind, operation.self, hab]
  | _ => simp [operation.self_assignment] at h

theorem mt_apply_trace_destroy (a : Addr) (s : state lifecycle_tracker_mt_base.cells T) :
    (lifecycle_tracker_mt.apply (operation.destroy a) s).trace =
      s.trace ++ [effect.increment .Destructor,
        effect.log_event .Destructor (s.objects.value_at a)
          (lifecycle_tracker_mt_base.get_type_name s).1,
        effect.value_op .Destructor a] := by
  simp [lifecycle_tracker_mt.apply, lifecycle_tracker_mt_base.dtor, state.value_op,
    mt_log_and_increment_trace_name]

theorem mt_apply_trace_counted (o : operation T) (s : state lifecycle_tracker_mt_base.cells T)
    (h : o.self_assignment = false) (hd : o.kind ≠ .Destructor) :
    (lifecycle_tracker_mt.apply o s).trace =
      s.trace ++ [effect.value_op o.kind o.self, effect.increment o.kind,
        effect.log_event o.kind ((o.on_store s.objects).value_at o.self)
          (lifecycle_tracker_mt_base.get_type_name s).1] := by
  cases o with
  | construct a v =>
    simp only [lifecycle_tracker_mt.apply, lifecycle_tracker_mt_base.ctor,
      mt_log_and_increment_trace_name, operation.kind, operation.self, operation.on_store]
    rw [mt_get_type_name_fst_congr (s.value_op .Constructor a _) s rfl rfl]
    simp [state.value_op]
  | copy_construct a b =>
    simp only [lifecycle_tracker_mt.apply, lifecycle_tracker_mt_base.copy_ctor,
      mt_log_and_increment_trace_name, operation.kind, operation.self, operation.on_store]
    rw [mt_get_type_name_fst_congr (s.value_op .CopyConstructor a _) s rfl rfl]
    simp [state.value_op]
  | move_construct a b =>
    simp only [lifecycle_tracker_mt.apply, lifecycle_tracker_mt_base.move_ctor,
      mt_log_and_increment_trace_name, operation.kind, operation.self, operation.on_store]
    rw [mt_get_type_name_fst_congr (s.value_op .MoveConstructor a _) s rfl rfl]
    simp [state.value_op]
  | copy_assign a b =>
    have hab : a ≠ b := by simpa [operation.self_assignment] using h
    simp only [lifecycle_tracker_mt.apply, lifecycle_tracker_mt_base.copy_assign, if_pos hab,
      mt_log_and_increment_trace_name, operation.kind, operation.self, operation.on_store,
      ne_eq, not_false_eq_true]
    rw [mt_get_type_name_fst_congr (s.value_op .CopyAssignment a _) s rfl rfl]
    simp [state.value_op]
  | move_assign a b =>
    have hab : a ≠ b := by simpa [operation.self_assignment] using h
    simp only [lifecycle_tracker_mt.apply, lifecycle_tracker_mt_base.move_assign, if_pos hab,
      mt_log_and_increment_trace_name, operation.kind, operation.self, operation.on_store,
      ne_eq, not_false_eq_true]
    rw [mt_get_type_name_fst_congr (s.value_op .MoveAssignment a _) s rfl rfl]
    simp [state.value_op]
  | destroy a => exact absurd rfl hd

end traces

/-! ## C2 -/

section claims_assignment

open intl

theorem bumped_of_set (e : lifecycle_event) (c : lifecycle_counters) :
    lifecycle_counters.bumped e c
      (lifecycle_tracker_base.set_counter e c
        ((lifecycle_tracker_base.get_counter e c + 1) % SIZE_MOD)) :=
  ⟨get_set_counter_same _ _ _, fun _ h => get_set_counter_other h _ _⟩

theorem apply_bumped {T : Type} [wrapped T] (o : operation T)
    (s : state lifecycle_counters T) (h : o.self_assignment = false) :
    lifecycle_counters.bumped o.kind (lifecycle_tracker_base.get_counters s)
      (lifecycle_tracker_base.get_counters (lifecycle_tracker.apply o s)) := by
  unfold lifecycle_tracker_base.get_counters
  rw [apply_counters, h]
  exact bumped_of_set _ _

theorem mt_apply_bumped {T : Type} [wrapped T] (o : operation T)
    (s : state lifecycle_tracker_mt_base.cells T) (h : o.self_assignment = false) :
    lifecycle_counters.bumped o.kind (lifecycle_tracker_mt_base.get_counters s)
      (lifecycle_tracker_mt_base.get_counters (lifecycle_tracker_mt.apply o s)) := by
  rw [mt_apply_snapshot, h]
  exact bumped_of_set _ _

/-- C2: on the serial and on the concurrent tracker, copy-assigning or move-assigning
the instance at `a` to itself leaves the counters as they were and adds to the trace
the assignment of `T` only (no increment, no `log_event`); an assignment between the
distinct instances at `a` and `b` applies `++` once to the matching assignment slot,
leaves the other five slots, and makes one `log_event` call. -/
theorem assignment_counted_unless_self {T : Type} [wrapped T] (a b : Addr)
    (s : state lifecycle_counters T) (m : state lifecycle_tracker_mt_base.cells T) :
    (lifecycle_tracker_base.get_counters (lifecycle_tracker.apply (operation.copy_assign a a) s)
        = lifecycle_tracker_base.get_counters s ∧
      (lifecycle_tracker.apply (operation.copy_assign a a) s).trace
        = s.trace ++ [effect.value_op .CopyAssignment a]) ∧
    (lifecycle_tracker_base.get_counters (lifecycle_tracker.apply (operation.move_assign a a) s)
        = lifecycle_tracker_base.get_counters s ∧
      (lifecycle_tracker.apply (operation.move_assign a a) s).trace
        = s.trace ++ [effect.value_op .MoveAssignment a]) ∧
    (lifecycle_tracker_mt_base.get_counters
        (lifecycle_tracker_mt.apply (operation.copy_assign a a) m)
        = lifecycle_tracker_mt_base.get_counters m ∧
      (lifecycle_tracker_mt.apply (operation.copy_assign a a) m).trace
        = m.trace ++ [effect.value_op .CopyAssignment a]) ∧
    (lifecycle_tracker_mt_base.get_counters
        (lifecycle_tracker_mt.apply (operation.move_assign a a) m)
        = lifecycle_tracker_mt_base.get_counters m ∧
      (lifecycle_tracker_mt.apply (operation.move_assign a a) m).trace
        = m.trace ++ [effect.value_op .MoveAssignment a]) ∧
    (a ≠ b →
      (lifecycle_counters.bumped .CopyAssignment (lifecycle_tracker_base.get_counters s)
          (lifecycle_tracker_base.get_counters
            (lifecycle_tracker.apply (operation.copy_assign a b) s)) ∧
        ∃ v n, (lifecycle_tracker.apply (operation.copy_assign a b) s).trace =
          s.trace ++ [effect.value_op .CopyAssignment a, effect.increment .CopyAssignment,
            effect.log_event .CopyAssignment v n]) ∧
      (lifecycle_counters.bumped .MoveAssignment (lifecycle_tracker_base.get_counters s)
          (lifecycle_tracker_base.get_counters
            (lifecycle_tracker.apply (operation.move_assign a b) s)) ∧
        ∃ v n, (lifecycle_tracker.apply (operation.move_assign a b) s).trace =
          s.trace ++ [effect.value_op .MoveAssignment a, effect.increment .MoveAssignment,
            effect.log_event .MoveAssignment v n]) ∧
      (lifecycle_counters.bumped .CopyAssignment (lifecycle_tracker_mt_base.get_counters m)
          (lifecycle_tracker_mt_base.get_counters
            (lifecycle_tracker_mt.apply (operation.copy_assign a b) m)) ∧
        ∃ v n, (lifecycle_tracker_mt.apply (operation.copy_assign a b) m).trace =
          m.trace ++ [effect.value_op .CopyAssignment a, effect.increment .CopyAssignment,
            effect.log_event .CopyAssignment v n]) ∧
      (lifecycle_counters.bumped .MoveAssignment (lifecycle_tracker_mt_base.get_counters m)
          (lifecycle_tracker_mt_base.get_counters
            (lifecycle_tracker_mt.apply (operation.move_assign a b) m)) ∧
        ∃ v n, (lifecycle_tracker_mt.apply (operation.move_assign a b) m).trace =
          m.trace ++ [effect.value_op .MoveAssignment a, effect.increment .MoveAssignment,
            effect.log_event .MoveAssignment v n])) := by
  have hself_c : (operation.copy_assign a a : operation T).self_assignment = true := by
    simp [operation.self_assignment]
  have hself_m : (operation.move_assign a a : operation T).self_assignment = true := by
    simp [operation.self_assignment]
  refine ⟨⟨?_, apply_trace_self _ s hself_c⟩, ⟨?_, apply_trace_self _ s hself_m⟩,
    ⟨?_, mt_apply_trace_self _ m hself_c⟩, ⟨?_, mt_apply_trace_self _ m hself_m⟩, ?_⟩
  · unfold lifecycle_tracker_base.get_counters
    rw [apply_counters, hself_c]; rfl
  · unfold lifecycle_tracker_base.get_counters
    rw [apply_counters, hself_m]; rfl
  · rw [mt_apply_snapshot, hself_c]; rfl
  · rw [mt_apply_snapshot, hself_m]; rfl
  · intro hab
    have hc : (operation.copy_assign a b : operation T).self_assignment = false := by
      simp [operation.self_assignment, hab]
    have hm : (operation.move_assign a b : operation T).self_assignment = false := by
      simp [operation.self_assignment, hab]
    refine ⟨⟨apply_bumped _ s hc, _, _, apply_trace_counted _ s hc (by simp [operation.kind])⟩,
      ⟨apply_bumped _ s hm, _, _, apply_trace_counted _ s hm (by simp [operation.kind])⟩,
      ⟨mt_apply_bumped _ m hc, _, _,
        mt_apply_trace_counted _ m hc (by simp [operation.kind])⟩,
      ⟨mt_apply_bumped _ m hm, _, _,
        mt_apply_trace_counted _ m hm (by simp [operation.kind])⟩⟩

/-- C2 at the two live `MyInt` instances at addresses 1 and 0. -/
theorem assignment_counted_unless_self_witness :
    (1 : Addr) ≠ 0 ∧
    lifecycle_counters.bumped .CopyAssignment (lifecycle_tracker_base.get_counters two_live)
      (lifecycle_tracker_base.get_counters
        (lifecycle_tracker.apply (operation.copy_assign 1 0) two_live)) ∧
    lifecycle_counters.bumped .MoveAssignment
      (lifecycle_tracker_mt_base.get_counters two_live_mt)
      (lifecycle_tracker_mt_base.get_counters
        (lifecycle_tracker_mt.apply (operation.move_assign 1 0) two_live_mt)) :=
  ⟨by decide,
    ((assignment_counted_unless_self 1 0 two_live two_live_mt).2.2.2.2 (by decide)).1.1,
    ((assignment_counted_unless_self 1 0 two_live two_live_mt).2.2.2.2 (by decide)).2.2.2.1⟩

end claims_assignment

/-! ## C3 -/

/-- C3: for every state of the serial tracker and every state of the concurrent
tracker, `get_counters()` right after `reset_counters()` returns the snapshot whose six
raw counters are all 0. -/
theorem reset_then_get_all_zero {T : Type} (s : state lifecycle_counters T)
    (m : state intl.lifecycle_tracker_mt_base.cells T) :
    intl.lifecycle_tracker_base.get_counters (intl.lifecycle_tracker_base.reset_counters s)
      = ⟨0, 0, 0, 0, 0, 0⟩ ∧
    intl.lifecycle_tracker_mt_base.get_counters
      (intl.lifecycle_tracker_mt_base.reset_counters m) = ⟨0, 0, 0, 0, 0, 0⟩ := by
  refine ⟨rfl, ?_⟩
  simp [intl.lifecycle_tracker_mt_base.get_counters,
    intl.lifecycle_tracker_mt_base.reset_counters, intl.lifecycle_tracker_mt_base.get_counter,
    intl.lifecycle_tracker_mt_base.store_counter, lifecycle_event.index, Function.update]

/-! ## C4 -/

/-- C4, as stated, fails for destruction: destroying the live `MyInt` instance at
address 0 appends to the trace first the increment of the `destructor` slot, then the
`log_event` call, which still sees the value 10, and only then the destructor of
`MyInt`; so the trace is not the operation of `T` followed by increment and
`log_event`. -/
theorem destruction_logs_before_value_destroyed :
    (lifecycle_tracker.apply (operation.destroy 0) two_live).trace =
      two_live.trace ++ [effect.increment .Destructor,
        effect.log_event .Destructor (some ⟨10⟩) "MyInt",
        effect.value_op .Destructor 0] ∧
    ¬ ∃ v n, (lifecycle_tracker.apply (operation.destroy 0) two_live).trace =
      two_live.trace ++ [effect.value_op .Destructor 0, effect.increment .Destructor,
        effect.log_event .Destructor v n] := by
  have h : (lifecycle_tracker.apply (operation.destroy 0) two_live).trace =
      two_live.trace ++ [effect.increment .Destructor,
        effect.log_event .Destructor (some ⟨10⟩) "MyInt",
        effect.value_op .Destructor 0] := by
    rw [apply_trace_destroy]
    rfl
  refine ⟨h, ?_⟩
  rintro ⟨v, n, hv⟩
  rw [h] at hv
  have hv' := List.append_cancel_left hv
  simp at hv'

/-- C4, amended: on a serial tracker instance, each of the five lifecycle events other
than destruction (an assignment being between distinct instances) first completes the
operation of the embedded `T`, then increments the matching slot once, then calls
`log_event` once, with the value the instance holds after the operation of `T`;
destruction first increments the `destructor` slot once, then calls `log_event` once
with the value still intact, and only then runs the destructor of `T`. -/
theorem serial_event_order {T : Type} [wrapped T] (o : operation T)
    (s : state lifecycle_counters T) (hns : o.self_assignment = false) :
    lifecycle_counters.bumped o.kind (intl.lifecycle_tracker_base.get_counters s)
      (intl.lifecycle_tracker_base.get_counters (lifecycle_tracker.apply o s)) ∧
    (o.kind ≠ .Destructor →
      (lifecycle_tracker.apply o s).trace =
        s.trace ++ [effect.value_op o.kind o.self, effect.increment o.kind,
          effect.log_event o.kind ((lifecycle_tracker.apply o s).objects.value_at o.self)
            (intl.lifecycle_tracker_base.get_type_name s).1]) ∧
    (o.kind = .Destructor →
      (lifecycle_tracker.apply o s).trace =
        s.trace ++ [effect.increment .Destructor,
          effect.log_event .Destructor (s.objects.value_at o.self)
            (intl.lifecycle_tracker_base.get_type_name s).1,
          effect.value_op .Destructor o.self]) := by
  refine ⟨apply_bumped o s hns, ?_, ?_⟩
  · intro hd
    rw [apply_objects]
    exact apply_trace_counted o s hns hd
  · intro hd
    cases o with
    | destroy a => exact apply_trace_destroy a s
    | _ => simp [operation.kind] at hd

/-- C4, amended, at the copy construction of a third `MyInt` instance from the one at
address 0: the copy runs first and `log_event` sees the copied value 10. -/
theorem serial_event_order_witness :
    (operation.copy_construct 2 0 : operation MyInt).self_assignment = false ∧
    (operation.copy_construct 2 0 : operation MyInt).kind ≠ .Destructor ∧
    (lifecycle_tracker.apply (operation.copy_construct 2 0) two_live).trace =
      two_live.trace ++ [effect.value_op .CopyConstructor 2,
        effect.increment .CopyConstructor,
        effect.log_event .CopyConstructor (some ⟨10⟩) "MyInt"] :=
  ⟨rfl, by decide,
    (serial_event_order (operation.copy_construct 2 0) two_live rfl).2.1 (by decide)⟩

/-! ## C5 -/

section claims_refinement

open intl

variable {T : Type} [wrapped T]

theorem exec_cons (c : call T) (cs : List (call T)) (s : state lifecycle_counters T) :
    lifecycle_tracker.exec (c :: cs) s =
      lifecycle_tracker.exec cs
        (match c with
          | call.event o => lifecycle_tracker.apply o s
          | call.reset_counters => lifecycle_tracker_base.reset_counters s) :=
  rfl

theorem mt_exec_cons (c : call T) (cs : List (call T))
    (s : state lifecycle_tracker_mt_base.cells T) :
    lifecycle_tracker_mt.exec (c :: cs) s =
      lifecycle_tracker_mt.exec cs
        (match c with
          | call.event o => lifecycle_tracker_mt.apply o s
          | call.reset_counters => lifecycle_tracker_mt_base.reset_counters s) :=
  rfl

/-- C5: whenever the concurrent and the serial tracker show the same snapshot, they
show the same snapshot (all six fields) after the same sequence of lifecycle events and
`reset_counters()` calls run by one thread. -/
theorem concurrent_snapshot_equals_serial (cs : List (call T))
    (s : state lifecycle_counters T) (m : state lifecycle_tracker_mt_base.cells T)
    (h : lifecycle_tracker_mt_base.get_counters m = lifecycle_tracker_base.get_counters s) :
    lifecycle_tracker_mt_base.get_counters (lifecycle_tracker_mt.exec cs m) =
      lifecycle_tracker_base.get_counters (lifecycle_tracker.exec cs s) := by
  induction cs generalizing s m with
  | nil => exact h
  | cons c cs ih =>
    rw [exec_cons, mt_exec_cons]
    apply ih
    cases c with
    | event o =>
      show lifecycle_tracker_mt_base.get_counters (lifecycle_tracker_mt.apply o m) =
        lifecycle_tracker_base.get_counters (lifecycle_tracker.apply o s)
      rw [mt_apply_snapshot, h]
      unfold lifecycle_tracker_base.get_counters
      rw [apply_counters]
    | reset_counters =>
      show lifecycle_tracker_mt_base.get_counters (lifecycle_tracker_mt_base.reset_counters m) =
        lifecycle_tracker_base.get_counters (lifecycle_tracker_base.reset_counters s)
      rw [mt_reset_snapshot]
      rfl

end claims_refinement

/-- C5 from program start, on a sequence with a self-assignment and a
`reset_counters()` call in the middle: both trackers end with the snapshot
`{1, 1, 0, 1, 0, 2}`. -/
theorem concurrent_snapshot_equals_serial_witness :
    intl.lifecycle_tracker_mt_base.get_counters (start_mt MyInt) =
      intl.lifecycle_tracker_base.get_counters (start MyInt) ∧
    intl.lifecycle_tracker_mt_base.get_counters
      (lifecycle_tracker_mt.exec sample_calls (start_mt MyInt)) =
      intl.lifecycle_tracker_base.get_counters
        (lifecycle_tracker.exec sample_calls (start MyInt)) ∧
    intl.lifecycle_tracker_base.get_counters
        (lifecycle_tracker.exec sample_calls (start MyInt)) = ⟨1, 1, 0, 1, 0, 2⟩ :=
  ⟨rfl, concurrent_snapshot_equals_serial sample_calls (start MyInt) (start_mt MyInt) rfl,
    rfl⟩

/-! ## C6 -/

theorem world_on_view_other {C T : Type} (A B : Nat) (h : A ≠ B) (f : state C T → state C T)
    (w : world C T) :
    ((w.under A f).view B).counters_ = (w.view B).counters_ := by
  simp [world.under, world.put, world.view, Function.update_noteq (Ne.symm h)]

/-- C6: for every wrapped type `T` and two distinct tags `A` and `B`, a lifecycle event
on an instance tracked under `(T, A)` and `reset_counters()` for `(T, A)` leave the
snapshot `get_counters()` returns for `(T, B)` unchanged, on the serial and on the
concurrent tracker. -/
theorem other_tag_snapshot_unchanged {T : Type} [wrapped T] (A B : Nat) (hAB : A ≠ B)
    (o : operation T) (w : world lifecycle_counters T)
    (wm : world intl.lifecycle_tracker_mt_base.cells T) :
    intl.lifecycle_tracker_base.get_counters ((w.under A (lifecycle_tracker.apply o)).view B) =
      intl.lifecycle_tracker_base.get_counters (w.view B) ∧
    intl.lifecycle_tracker_base.get_counters
        ((w.under A intl.lifecycle_tracker_base.reset_counters).view B) =
      intl.lifecycle_tracker_base.get_counters (w.view B) ∧
    intl.lifecycle_tracker_mt_base.get_counters
        ((wm.under A (lifecycle_tracker_mt.apply o)).view B) =
      intl.lifecycle_tracker_mt_base.get_counters (wm.view B) ∧
    intl.lifecycle_tracker_mt_base.get_counters
        ((wm.under A intl.lifecycle_tracker_mt_base.reset_counters).view B) =
      intl.lifecycle_tracker_mt_base.get_counters (wm.view B) := by
  refine ⟨?_, ?_, ?_, ?_⟩
  · unfold intl.lifecycle_tracker_base.get_counters
    exact world_on_view_other A B hAB _ w
  · unfold intl.lifecycle_tracker_base.get_counters
    exact world_on_view_other A B hAB _ w
  · unfold intl.lifecycle_tracker_mt_base.get_counters
    rw [world_on_view_other A B hAB _ wm]
  · unfold intl.lifecycle_tracker_mt_base.get_counters
    rw [world_on_view_other A B hAB _ wm]

/-- C6 at the tags 0 and 42 of the test suite: a construction under tag 0 changes the
snapshot of tag 0 and leaves the snapshot of tag 42. -/
theorem other_tag_snapshot_unchanged_witness :
    (0 : Nat) ≠ 42 ∧
    intl.lifecycle_tracker_base.get_counters
        (((start_world MyInt).under 0
          (lifecycle_tracker.apply (operation.construct 0 ⟨42⟩))).view 42) =
      intl.lifecycle_tracker_base.get_counters ((start_world MyInt).view 42) ∧
    intl.lifecycle_tracker_base.get_counters
        (((start_world MyInt).under 0
          (lifecycle_tracker.apply (operation.construct 0 ⟨42⟩))).view 0) =
      ⟨1, 0, 0, 0, 0, 0⟩ :=
  ⟨by decide,
    (other_tag_snapshot_unchanged 0 42 (by decide) (operation.construct 0 (MyInt.mk 42))
      (start_world MyInt) (start_world_mt MyInt)).1,
    rfl⟩

/-! ## Live instances -/

section live

open intl

variable {T : Type}

theorem store_length_assign (h : store T) (a : Addr) (v : T) :
    (h.assign a v).length = h.length := by
  simp [store.assign]

theorem store_length_destroy (h : store T) (a : Addr) (ha : (h.value_at a).isSome = true) :
    (h.destroy a).length + 1 = h.length := by
  unfold store.value_at at ha
  have ha' : (h.find? (fun p => p.1 == a)).isSome = true := by
    cases hf : h.find? (fun p => p.1 == a) with
    | none => rw [hf] at ha; simp at ha
    | some p => rfl
  obtain ⟨p, hp, hpa⟩ := List.find?_isSome.mp ha'
  unfold store.destroy
  rw [List.length_eraseP_of_mem hp hpa]
  have : 0 < h.length := List.length_pos_of_mem hp
  omega

/-- The number of live instances after an allowed event. -/
theorem on_store_length [wrapped T] (o : operation T) (h : store T)
    (ha : o.allowed h = true) :
    (o.on_store h).length + (if o.kind = .Destructor then 1 else 0) =
      h.length + ((if o.kind = .Constructor then 1 else 0) +
        (if o.kind = .CopyConstructor then 1 else 0) +
        (if o.kind = .MoveConstructor then 1 else 0)) := by
  cases o with
  | construct a v => simp [operation.on_store, operation.kind, store.construct]
  | copy_construct a b =>
    simp only [operation.allowed, Bool.and_eq_true] at ha
    obtain ⟨v, hv⟩ := Option.isSome_iff_exists.mp ha.2
    simp [operation.on_store, operation.kind, store.copy_construct, hv]
  | move_construct a b =>
    simp only [operation.allowed, Bool.and_eq_true] at ha
    obtain ⟨v, hv⟩ := Option.isSome_iff_exists.mp ha.2
    simp [operation.on_store, operation.kind, store.move_construct, hv, store_length_assign]
  | copy_assign a b =>
    simp only [operation.allowed, Bool.and_eq_true] at ha
    obtain ⟨v, hv⟩ := Option.isSome_iff_exists.mp ha.2
    simp [operation.on_store, operation.kind, store.copy_assign, hv, store_length_assign]
  | move_assign a b =>
    simp only [operation.allowed, Bool.and_eq_true] at ha
    obtain ⟨v, hv⟩ := Option.isSome_iff_exists.mp ha.2
    simp [operation.on_store, operation.kind, store.move_assign, hv, store_length_assign]
  | destroy a =>
    simp only [operation.allowed] at ha
    simp [operation.on_store, operation.kind, store_length_destroy h a ha]

/-- Along a well-formed history, live instances plus destructions equal the instances
live at the start plus constructions of the three kinds. -/
theorem run_live_count [wrapped T] (os : List (operation T)) :
    ∀ s : state lifecycle_counters T, well_formed os s.objects = true →
      (lifecycle_tracker.run os s).objects.length + occurrences .Destructor os =
        s.objects.length + (occurrences .Constructor os + occurrences .CopyConstructor os +
          occurrences .MoveConstructor os) := by
  induction os with
  | nil => intro s _; simp [lifecycle_tracker.run, occurrences]
  | cons o os ih =>
    intro s hw
    simp only [well_formed, Bool.and_eq_true] at hw
    have h1 := on_store_length o s.objects hw.1
    have h2 := ih (lifecycle_tracker.apply o s) (by rw [apply_objects]; exact hw.2)
    rw [apply_objects] at h2
    rw [run_cons]
    simp only [occurrences_cons]
    omega

theorem mt_run_cons [wrapped T] (o : operation T) (os : List (operation T))
    (s : state lifecycle_tracker_mt_base.cells T) :
    lifecycle_tracker_mt.run (o :: os) s =
      lifecycle_tracker_mt.run os (lifecycle_tracker_mt.apply o s) :=
  rfl

theorem mt_run_live_count [wrapped T] (os : List (operation T)) :
    ∀ s : state lifecycle_tracker_mt_base.cells T, well_formed os s.objects = true →
      (lifecycle_tracker_mt.run os s).objects.length + occurrences .Destructor os =
        s.objects.length + (occurrences .Constructor os + occurrences .CopyConstructor os +
          occurrences .MoveConstructor os) := by
  induction os with
  | nil => intro s _; simp [lifecycle_tracker_mt.run, occurrences]
  | cons o os ih =>
    intro s hw
    simp only [well_formed, Bool.and_eq_true] at hw
    have h1 := on_store_length o s.objects hw.1
    have h2 := ih (lifecycle_tracker_mt.apply o s) (by rw [mt_apply_objects]; exact hw.2)
    rw [mt_apply_objects] at h2
    rw [mt_run_cons]
    simp only [occurrences_cons]
    omega

/-- The snapshot of the concurrent tracker follows the serial counters along a sequence
of events. -/
theorem mt_run_snapshot [wrapped T] (os : List (operation T)) :
    ∀ (s : state lifecycle_counters T) (m : state lifecycle_tracker_mt_base.cells T),
      lifecycle_tracker_mt_base.get_counters m = s.counters_ →
      lifecycle_tracker_mt_base.get_counters (lifecycle_tracker_mt.run os m) =
        (lifecycle_tracker.run os s).counters_ := by
  induction os with
  | nil => intro s m h; exact h
  | cons o os ih =>
    intro s m h
    rw [run_cons, mt_run_cons]
    apply ih
    rw [mt_apply_snapshot, h, apply_counters]

/-- A construction or destruction is never a self-assignment. -/
theorem countP_counted_of_not_assignment (e : lifecycle_event) (os : List (operation T))
    (h1 : e ≠ .CopyAssignment) (h2 : e ≠ .MoveAssignment) :
    os.countP (operation.counted e) = occurrences e os := by
  unfold occurrences
  apply List.countP_congr
  intro o _
  cases o <;> simp [operation.counted, operation.kind, operation.self_assignment, Ne.symm h1,
    Ne.symm h2]

/-- From reset counters, a construction or destruction slot holds the number of events
of its kind modulo `SIZE_MOD`. -/
theorem run_slot_from_reset [wrapped T] (e : lifecycle_event) (os : List (operation T))
    (s : state lifecycle_counters T) (h1 : e ≠ .CopyAssignment) (h2 : e ≠ .MoveAssignment) :
    lifecycle_tracker_base.get_counter e
      (lifecycle_tracker.run os (lifecycle_tracker_base.reset_counters s)).counters_ =
      occurrences e os % SIZE_MOD := by
  have h := run_counter e os (lifecycle_tracker_base.reset_counters s)
    (by rw [reset_counter_zero]; exact SIZE_MOD_pos)
  rw [countP_counted_of_not_assignment e os h1 h2, reset_counter_zero, Nat.zero_add] at h
  exact h

end live

/-! ## C7 -/

section claims_alive

open intl

theorem snapshot_balanced (k : lifecycle_counters) (c cc mc d : Nat)
    (hc : k.constructor = c % SIZE_MOD) (hcc : k.copy_constructor = cc % SIZE_MOD)
    (hmc : k.move_constructor = mc % SIZE_MOD) (hd : k.destructor = d % SIZE_MOD)
    (h : d = c + cc + mc) :
    k.alive = 0 ∧ k.destructor = k.total_constructed := by
  have ht : k.total_constructed = k.destructor := by
    unfold lifecycle_counters.total_constructed
    rw [hc, hcc, hmc, hd, h]
    simp only [SIZE_MOD]
    omega
  refine ⟨?_, ht.symm⟩
  unfold lifecycle_counters.alive
  rw [ht]
  omega

variable {T : Type} [wrapped T]

theorem serial_balanced (os : List (operation T)) (s0 : state lifecycle_counters T)
    (hw : well_formed os [] = true) (h0 : s0.objects = [])
    (hend : (lifecycle_tracker.run os (lifecycle_tracker_base.reset_counters s0)).objects = []) :
    (lifecycle_tracker_base.get_counters
        (lifecycle_tracker.run os (lifecycle_tracker_base.reset_counters s0))).alive = 0 ∧
    (lifecycle_tracker_base.get_counters
        (lifecycle_tracker.run os (lifecycle_tracker_base.reset_counters s0))).destructor =
      (lifecycle_tracker_base.get_counters
        (lifecycle_tracker.run os
          (lifecycle_tracker_base.reset_counters s0))).total_constructed := by
  have hl := run_live_count os (lifecycle_tracker_base.reset_counters s0)
    (by
      have : (lifecycle_tracker_base.reset_counters s0).objects = [] := h0
      rw [this]; exact hw)
  have hs : (lifecycle_tracker_base.reset_counters s0).objects = [] := h0
  rw [hend, hs] at hl
  simp only [List.length_nil, Nat.zero_add] at hl
  exact snapshot_balanced _ _ _ _ _
    (run_slot_from_reset .Constructor os s0 (by decide) (by decide))
    (run_slot_from_reset .CopyConstructor os s0 (by decide) (by decide))
    (run_slot_from_reset .MoveConstructor os s0 (by decide) (by decide))
    (run_slot_from_reset .Destructor os s0 (by decide) (by decide)) hl

theorem mt_balanced (os : List (operation T)) (m0 : state lifecycle_tracker_mt_base.cells T)
    (hw : well_formed os [] = true) (h0 : m0.objects = [])
    (hend : (lifecycle_tracker_mt.run os
      (lifecycle_tracker_mt_base.reset_counters m0)).objects = []) :
    (lifecycle_tracker_mt_base.get_counters
        (lifecycle_tracker_mt.run os (lifecycle_tracker_mt_base.reset_counters m0))).alive = 0 ∧
    (lifecycle_tracker_mt_base.get_counters
        (lifecycle_tracker_mt.run os
          (lifecycle_tracker_mt_base.reset_counters m0))).destructor =
      (lifecycle_tracker_mt_base.get_counters
        (lifecycle_tracker_mt.run os
          (lifecycle_tracker_mt_base.reset_counters m0))).total_constructed := by
  have hl := mt_run_live_count os (lifecycle_tracker_mt_base.reset_counters m0)
    (by
      have : (lifecycle_tracker_mt_base.reset_counters m0).objects = [] := h0
      rw [this]; exact hw)
  have hs : (lifecycle_tracker_mt_base.reset_counters m0).objects = [] := h0
  rw [hend, hs] at hl
  simp only [List.length_nil, Nat.zero_add] at hl
  have hsim := mt_run_snapshot os (lifecycle_tracker_base.reset_counters (start T))
    (lifecycle_tracker_mt_base.reset_counters m0) (by rw [mt_reset_snapshot]; rfl)
  rw [hsim]
  exact snapshot_balanced _ _ _ _ _
    (run_slot_from_reset .Constructor os (start T) (by decide) (by decide))
    (run_slot_from_reset .CopyConstructor os (start T) (by decide) (by decide))
    (run_slot_from_reset .MoveConstructor os (start T) (by decide) (by decide))
    (run_slot_from_reset .Destructor os (start T) (by decide) (by decide)) hl

/-- C7: for every well-formed sequence of lifecycle events on tracked instances of one
`(T, tag)`, serial or concurrent, that starts from reset counters with no live instance
and ends with no live instance (every constructed instance destroyed), `alive()` of the
final snapshot is 0 and `destructor` equals `total_constructed()`. -/
theorem all_destroyed_alive_zero (os : List (operation T))
    (s0 : state lifecycle_counters T) (m0 : state lifecycle_tracker_mt_base.cells T)
    (hw : well_formed os [] = true) :
    (s0.objects = [] →
      (lifecycle_tracker.run os (lifecycle_tracker_base.reset_counters s0)).objects = [] →
      (lifecycle_tracker_base.get_counters
          (lifecycle_tracker.run os (lifecycle_tracker_base.reset_counters s0))).alive = 0 ∧
      (lifecycle_tracker_base.get_counters
          (lifecycle_tracker.run os (lifecycle_tracker_base.reset_counters s0))).destructor =
        (lifecycle_tracker_base.get_counters
          (lifecycle_tracker.run os
            (lifecycle_tracker_base.reset_counters s0))).total_constructed) ∧
    (m0.objects = [] →
      (lifecycle_tracker_mt.run os (lifecycle_tracker_mt_base.reset_counters m0)).objects = [] →
      (lifecycle_tracker_mt_base.get_counters
          (lifecycle_tracker_mt.run os
            (lifecycle_tracker_mt_base.reset_counters m0))).alive = 0 ∧
      (lifecycle_tracker_mt_base.get_counters
          (lifecycle_tracker_mt.run os
            (lifecycle_tracker_mt_base.reset_counters m0))).destructor =
        (lifecycle_tracker_mt_base.get_counters
          (lifecycle_tracker_mt.run os
            (lifecycle_tracker_mt_base.reset_counters m0))).total_constructed) :=
  ⟨serial_balanced os s0 hw, mt_balanced os m0 hw⟩

end claims_alive

/-- C7 at `sample_history` from program start: four instances are constructed and four
destroyed, and `alive()` is 0. -/
theorem all_destroyed_alive_zero_witness :
    well_formed sample_history [] = true ∧
    (start MyInt).objects = [] ∧
    (lifecycle_tracker.run sample_history
      (intl.lifecycle_tracker_base.reset_counters (start MyInt))).objects = [] ∧
    (intl.lifecycle_tracker_base.get_counters
      (lifecycle_tracker.run sample_history
        (intl.lifecycle_tracker_base.reset_counters (start MyInt)))).alive = 0 :=
  ⟨by decide, rfl, by decide,
    ((all_destroyed_alive_zero sample_history (start MyInt) (start_mt MyInt) (by decide)).1
      rfl (by decide)).1⟩

/-! ## C8 -/

section claims_invariant

open intl

theorem snapshot_exact (k : lifecycle_counters) (c cc mc d len : Nat)
    (hc : k.constructor = c % SIZE_MOD) (hcc : k.copy_constructor = cc % SIZE_MOD)
    (hmc : k.move_constructor = mc % SIZE_MOD) (hd : k.destructor = d % SIZE_MOD)
    (h : len + d = c + cc + mc) (hb : c + cc + mc < 2 ^ 63) :
    k.alive = (len : Int) ∧ k.destructor ≤ k.total_constructed := by
  have ht : k.total_constructed = c + cc + mc := by
    unfold lifecycle_counters.total_constructed
    rw [hc, hcc, hmc]
    simp only [SIZE_MOD]
    omega
  have hd' : k.destructor = d := by
    rw [hd]
    simp only [SIZE_MOD]
    omega
  refine ⟨?_, by rw [ht, hd']; omega⟩
  unfold lifecycle_counters.alive to_ptrdiff
  rw [ht, hd']
  have h1 : c + cc + mc < 2 ^ 63 := hb
  have h2 : d < 2 ^ 63 := by omega
  rw [if_pos h1, if_pos h2]
  omega

variable {T : Type} [wrapped T]

theorem well_formed_append_left (pre t : List (operation T)) :
    ∀ h : store T, well_formed (pre ++ t) h = true → well_formed pre h = true := by
  induction pre with
  | nil => intro h _; rfl
  | cons o pre ih =>
    intro h hw
    simp only [List.cons_append, well_formed, Bool.and_eq_true] at hw ⊢
    exact ⟨hw.1, ih _ hw.2⟩

/-- While fewer than `2 ^ 63` instances have been constructed, `alive()` is the number
of live instances. -/
theorem serial_alive_is_live_count (os : List (operation T))
    (s0 : state lifecycle_counters T) (h0 : s0.objects = [])
    (hw : well_formed os [] = true)
    (hb : occurrences .Constructor os + occurrences .CopyConstructor os +
      occurrences .MoveConstructor os < 2 ^ 63) :
    (lifecycle_tracker_base.get_counters
        (lifecycle_tracker.run os (lifecycle_tracker_base.reset_counters s0))).alive =
      ((lifecycle_tracker.run os
        (lifecycle_tracker_base.reset_counters s0)).objects.length : Int) ∧
    (lifecycle_tracker_base.get_counters
        (lifecycle_tracker.run os (lifecycle_tracker_base.reset_counters s0))).destructor ≤
      (lifecycle_tracker_base.get_counters
        (lifecycle_tracker.run os
          (lifecycle_tracker_base.reset_counters s0))).total_constructed := by
  have hs : (lifecycle_tracker_base.reset_counters s0).objects = [] := h0
  have hl := run_live_count os (lifecycle_tracker_base.reset_counters s0)
    (by rw [hs]; exact hw)
  rw [hs] at hl
  simp only [List.length_nil, Nat.zero_add] at hl
  exact snapshot_exact _ _ _ _ _ _
    (run_slot_from_reset .Constructor os s0 (by decide) (by decide))
    (run_slot_from_reset .CopyConstructor os s0 (by decide) (by decide))
    (run_slot_from_reset .MoveConstructor os s0 (by decide) (by decide))
    (run_slot_from_reset .Destructor os s0 (by decide) (by decide)) hl hb

/-- The snapshot after one instance is constructed at address 1 and `n` rounds of
`churn` follow, from reset counters. -/
theorem churn_after_construct_snapshot (v : T) (n : Nat) (s0 : state lifecycle_counters T) :
    lifecycle_tracker_base.get_counters
      (lifecycle_tracker.run (operation.construct 1 v :: churn v n)
        (lifecycle_tracker_base.reset_counters s0)) =
      ⟨(n + 1) % SIZE_MOD, 0, 0, 0, 0, n % SIZE_MOD⟩ := by
  have hns : ∀ o ∈ operation.construct 1 v :: churn v n, o.self_assignment = false := by
    intro o ho
    rcases List.mem_cons.mp ho with h | h
    · subst h; rfl
    · exact churn_not_self v n o h
  have key : ∀ e, lifecycle_tracker_base.get_counter e
      (lifecycle_tracker.run (operation.construct 1 v :: churn v n)
        (lifecycle_tracker_base.reset_counters s0)).counters_ =
      occurrences e (operation.construct 1 v :: churn v n) % SIZE_MOD := by
    intro e
    have h := run_counter e (operation.construct 1 v :: churn v n)
      (lifecycle_tracker_base.reset_counters s0)
      (by rw [reset_counter_zero]; exact SIZE_MOD_pos)
    rw [counted_eq_kind_of_not_self e _ hns, reset_counter_zero, Nat.zero_add] at h
    exact h
  unfold lifecycle_tracker_base.get_counters
  apply counters_ext
  intro e
  rw [key e, occurrences_cons]
  cases e
  · rw [churn_occurrences_constructor]; rfl
  · rw [churn_occurrences_other v n _ (by decide) (by decide)]; rfl
  · rw [churn_occurrences_other v n _ (by decide) (by decide)]; rfl
  · rw [churn_occurrences_other v n _ (by decide) (by decide)]; rfl
  · rw [churn_occurrences_other v n _ (by decide) (by decide)]; rfl
  · rw [churn_occurrences_destructor]; rfl

theorem churn_after_construct_well_formed (v : T) (n : Nat) :
    well_formed (operation.construct 1 v :: churn v n) [] = true := by
  simp only [well_formed, Bool.and_eq_true]
  exact ⟨rfl, churn_well_formed v n _ rfl⟩

end claims_invariant

/-- C8, as stated, fails: the history that constructs one `MyInt` instance at address 1
and then runs `2 ^ 64 - 1` rounds of `churn` starts from zeroed counters with no live
instance and acts on live instances only, and after it `destructor` is `2 ^ 64 - 1`
while `total_constructed()` is 0. -/
theorem destructor_exceeds_total_constructed_after_wrap :
    (start MyInt).objects = [] ∧
    well_formed (operation.construct 1 (MyInt.mk 1) :: churn (MyInt.mk 1) (SIZE_MOD - 1)) []
      = true ∧
    ¬ ((intl.lifecycle_tracker_base.get_counters
        (lifecycle_tracker.run
          (operation.construct 1 (MyInt.mk 1) :: churn (MyInt.mk 1) (SIZE_MOD - 1))
          (intl.lifecycle_tracker_base.reset_counters (start MyInt)))).destructor ≤
      (intl.lifecycle_tracker_base.get_counters
        (lifecycle_tracker.run
          (operation.construct 1 (MyInt.mk 1) :: churn (MyInt.mk 1) (SIZE_MOD - 1))
          (intl.lifecycle_tracker_base.reset_counters (start MyInt)))).total_constructed) := by
  refine ⟨rfl, churn_after_construct_well_formed _ _, ?_⟩
  rw [churn_after_construct_snapshot]
  simp [lifecycle_counters.total_constructed, SIZE_MOD]

/-- C8, amended: in every single-threaded history of lifecycle events on serial tracker
instances of one `(T, tag)` that starts from zeroed counters with no live instance, acts
on live instances only and constructs fewer than `2 ^ 63` instances, after every step
`alive() >= 0` and `destructor <= total_constructed()`. -/
theorem serial_alive_nonneg_below_wrap {T : Type} [wrapped T] (os : List (operation T))
    (s0 : state lifecycle_counters T) (h0 : s0.objects = [])
    (hw : well_formed os [] = true)
    (hb : occurrences .Constructor os + occurrences .CopyConstructor os +
      occurrences .MoveConstructor os < 2 ^ 63) :
    ∀ pre, pre <+: os →
      0 ≤ (intl.lifecycle_tracker_base.get_counters
        (lifecycle_tracker.run pre (intl.lifecycle_tracker_base.reset_counters s0))).alive ∧
      (intl.lifecycle_tracker_base.get_counters
        (lifecycle_tracker.run pre (intl.lifecycle_tracker_base.reset_counters s0))).destructor ≤
      (intl.lifecycle_tracker_base.get_counters
        (lifecycle_tracker.run pre
          (intl.lifecycle_tracker_base.reset_counters s0))).total_constructed := by
  rintro pre ⟨t, rfl⟩
  have hw' := well_formed_append_left pre t [] hw
  have hb' : occurrences .Constructor pre + occurrences .CopyConstructor pre +
      occurrences .MoveConstructor pre < 2 ^ 63 := by
    simp only [occurrences_append] at hb
    omega
  have h := serial_alive_is_live_count pre s0 h0 hw' hb'
  refine ⟨?_, h.2⟩
  rw [h.1]
  exact Int.natCast_nonneg _

/-- C8, amended, at `sample_history` from program start, after its first six steps. -/
theorem serial_alive_nonneg_below_wrap_witness :
    (start MyInt).objects = [] ∧ well_formed sample_history [] = true ∧
    occurrences .Constructor sample_history + occurrences .CopyConstructor sample_history +
      occurrences .MoveConstructor sample_history < 2 ^ 63 ∧
    sample_history.take 6 <+: sample_history ∧
    0 ≤ (intl.lifecycle_tracker_base.get_counters
        (lifecycle_tracker.run (sample_history.take 6)
          (intl.lifecycle_tracker_base.reset_counters (start MyInt)))).alive :=
  ⟨rfl, by decide, by decide, List.take_prefix 6 sample_history,
    (serial_alive_nonneg_below_wrap sample_history (start MyInt) rfl (by decide) (by decide)
      (sample_history.take 6) (List.take_prefix 6 sample_history)).1⟩

/-! ## C9 -/

/-- C9, as stated, fails: when the `constructor` slot holds `SIZE_MAX`, a construction
does not raise it by 1 but wraps it to 0. -/
theorem construction_at_max_wraps_to_zero :
    constructor_at_max.counters_.constructor = SIZE_MOD - 1 ∧
    (intl.lifecycle_tracker_base.get_counters
      (lifecycle_tracker.apply (operation.construct 0 ⟨1⟩) constructor_at_max)).constructor
      = 0 ∧
    (intl.lifecycle_tracker_base.get_counters
      (lifecycle_tracker.apply (operation.construct 0 ⟨1⟩) constructor_at_max)).constructor
      ≠ constructor_at_max.counters_.constructor + 1 := by
  refine ⟨rfl, ?_, ?_⟩
  · unfold intl.lifecycle_tracker_base.get_counters
    rw [apply_counters]
    simp [operation.self_assignment, operation.kind, intl.lifecycle_tracker_base.set_counter,
      intl.lifecycle_tracker_base.get_counter, constructor_at_max, SIZE_MOD]
  · unfold intl.lifecycle_tracker_base.get_counters
    rw [apply_counters]
    simp [operation.self_assignment, operation.kind, intl.lifecycle_tracker_base.set_counter,
      intl.lifecycle_tracker_base.get_counter, constructor_at_max, SIZE_MOD]

/-- C9, amended: for every counter state and every event kind, one counted lifecycle
event (serial or concurrent tracker) changes exactly the slot that matches the event
kind, to its value plus 1 modulo `2 ^ 64` (so it is raised by 1 unless it holds
`SIZE_MAX`), and leaves the other five slots unchanged; the `log_event` call made as
part of the event alters no slot: the counters after `log_and_increment` are the
counters right after its `++`. -/
theorem counted_event_bumps_matching_slot {T : Type} [wrapped T] (o : operation T)
    (s : state lifecycle_counters T) (m : state intl.lifecycle_tracker_mt_base.cells T)
    (hns : o.self_assignment = false) :
    (lifecycle_counters.bumped o.kind (intl.lifecycle_tracker_base.get_counters s)
        (intl.lifecycle_tracker_base.get_counters (lifecycle_tracker.apply o s)) ∧
      (intl.lifecycle_tracker_base.get_counter o.kind
          (intl.lifecycle_tracker_base.get_counters s) + 1 < SIZE_MOD →
        intl.lifecycle_tracker_base.get_counter o.kind
          (intl.lifecycle_tracker_base.get_counters (lifecycle_tracker.apply o s)) =
        intl.lifecycle_tracker_base.get_counter o.kind
          (intl.lifecycle_tracker_base.get_counters s) + 1)) ∧
    (lifecycle_counters.bumped o.kind (intl.lifecycle_tracker_mt_base.get_counters m)
        (intl.lifecycle_tracker_mt_base.get_counters (lifecycle_tracker_mt.apply o m)) ∧
      (intl.lifecycle_tracker_base.get_counter o.kind
          (intl.lifecycle_tracker_mt_base.get_counters m) + 1 < SIZE_MOD →
        intl.lifecycle_tracker_base.get_counter o.kind
          (intl.lifecycle_tracker_mt_base.get_counters (lifecycle_tracker_mt.apply o m)) =
        intl.lifecycle_tracker_base.get_counter o.kind
          (intl.lifecycle_tracker_mt_base.get_counters m) + 1)) ∧
    (∀ e self,
      intl.lifecycle_tracker_base.get_counters
          (intl.lifecycle_tracker_base.log_and_increment e self s) =
        intl.lifecycle_tracker_base.get_counters (intl.lifecycle_tracker_base.increment e s)) ∧
    (∀ e self,
      intl.lifecycle_tracker_mt_base.get_counters
          (intl.lifecycle_tracker_mt_base.log_and_increment e self m) =
        intl.lifecycle_tracker_mt_base.get_counters
          (intl.lifecycle_tracker_mt_base.fetch_add e m)) := by
  have hs := apply_bumped o s hns
  have hm := mt_apply_bumped o m hns
  refine ⟨⟨hs, fun hlt => ?_⟩, ⟨hm, fun hlt => ?_⟩, ?_, ?_⟩
  · rw [hs.1, Nat.mod_eq_of_lt hlt]
  · rw [hm.1, Nat.mod_eq_of_lt hlt]
  · intro e self
    unfold intl.lifecycle_tracker_base.get_counters
    rw [log_and_increment_counters]
    rfl
  · intro e self
    unfold intl.lifecycle_tracker_mt_base.get_counters
    rw [mt_log_and_increment_counters]
    rfl

/-- C9, amended, at the first construction from program start: the `constructor` slot
goes from 0 to 1. -/
theorem counted_event_bumps_matching_slot_witness :
    (operation.construct 0 (MyInt.mk 10)).self_assignment = false ∧
    intl.lifecycle_tracker_base.get_counter .Constructor
      (intl.lifecycle_tracker_base.get_counters (start MyInt)) + 1 < SIZE_MOD ∧
    intl.lifecycle_tracker_base.get_counter .Constructor
      (intl.lifecycle_tracker_base.get_counters
        (lifecycle_tracker.apply (operation.construct 0 (MyInt.mk 10)) (start MyInt))) =
      intl.lifecycle_tracker_base.get_counter .Constructor
        (intl.lifecycle_tracker_base.get_counters (start MyInt)) + 1 :=
  ⟨rfl, by decide,
    (counted_event_bumps_matching_slot (operation.construct 0 (MyInt.mk 10)) (start MyInt)
      (start_mt MyInt) rfl).1.2 (by decide)⟩

/-! ## C10 -/

/-- C10, as stated, fails: when the `destructor` slot holds `SIZE_MAX`, destroying the
live instance at address 0 wraps the slot to 0, below its value before the event. -/
theorem destruction_at_max_lowers_slot :
    destructor_at_max.counters_.destructor = SIZE_MOD - 1 ∧
    (intl.lifecycle_tracker_base.get_counters
      (lifecycle_tracker.apply (operation.destroy 0) destructor_at_max)).destructor <
      (intl.lifecycle_tracker_base.get_counters destructor_at_max).destructor := by
  refine ⟨rfl, ?_⟩
  unfold intl.lifecycle_tracker_base.get_counters
  rw [apply_counters]
  simp [operation.self_assignment, operation.kind, intl.lifecycle_tracker_base.set_counter,
    intl.lifecycle_tracker_base.get_counter, destructor_at_max, SIZE_MOD]

/-- C10, amended: for every counter state and every lifecycle event, serial or
concurrent, whose matching slot is below `SIZE_MAX`, after the event every one of the
six slots is greater than or equal to its value before the event; and a counted event
whose matching slot holds `SIZE_MAX` wraps that slot to 0. -/
theorem event_lowers_no_slot_below_max {T : Type} [wrapped T] (o : operation T)
    (s : state lifecycle_counters T) (m : state intl.lifecycle_tracker_mt_base.cells T) :
    (intl.lifecycle_tracker_base.get_counter o.kind
        (intl.lifecycle_tracker_base.get_counters s) + 1 < SIZE_MOD →
      ∀ e, intl.lifecycle_tracker_base.get_counter e
          (intl.lifecycle_tracker_base.get_counters s) ≤
        intl.lifecycle_tracker_base.get_counter e
          (intl.lifecycle_tracker_base.get_counters (lifecycle_tracker.apply o s))) ∧
    (intl.lifecycle_tracker_base.get_counter o.kind
        (intl.lifecycle_tracker_mt_base.get_counters m) + 1 < SIZE_MOD →
      ∀ e, intl.lifecycle_tracker_base.get_counter e
          (intl.lifecycle_tracker_mt_base.get_counters m) ≤
        intl.lifecycle_tracker_base.get_counter e
          (intl.lifecycle_tracker_mt_base.get_counters (lifecycle_tracker_mt.apply o m))) ∧
    (o.self_assignment = false →
      (intl.lifecycle_tracker_base.get_counter o.kind
          (intl.lifecycle_tracker_base.get_counters s) = SIZE_MOD - 1 →
        intl.lifecycle_tracker_base.get_counter o.kind
          (intl.lifecycle_tracker_base.get_counters (lifecycle_tracker.apply o s)) = 0) ∧
      (intl.lifecycle_tracker_base.get_counter o.kind
          (intl.lifecycle_tracker_mt_base.get_counters m) = SIZE_MOD - 1 →
        intl.lifecycle_tracker_base.get_counter o.kind
          (intl.lifecycle_tracker_mt_base.get_counters (lifecycle_tracker_mt.apply o m)) =
          0)) := by
  have hwrap : (SIZE_MOD - 1 + 1) % SIZE_MOD = 0 := by simp [SIZE_MOD]
  refine ⟨?_, ?_, fun hns => ⟨fun hmax => ?_, fun hmax => ?_⟩⟩
  · intro hlt e
    unfold intl.lifecycle_tracker_base.get_counters at hlt ⊢
    rw [apply_counters]
    by_cases hsa : o.self_assignment = true
    · simp [hsa]
    · rw [if_neg hsa, get_set_counter]
      by_cases he : e = o.kind
      · subst he
        rw [if_pos rfl, Nat.mod_eq_of_lt hlt]
        exact Nat.le_succ _
      · rw [if_neg he]
  · intro hlt e
    rw [mt_apply_snapshot]
    by_cases hsa : o.self_assignment = true
    · simp [hsa]
    · rw [if_neg hsa, get_set_counter]
      by_cases he : e = o.kind
      · subst he
        rw [if_pos rfl, Nat.mod_eq_of_lt hlt]
        exact Nat.le_succ _
      · rw [if_neg he]
  · rw [(apply_bumped o s hns).1, hmax, hwrap]
  · rw [(mt_apply_bumped o m hns).1, hmax, hwrap]

/-- C10, amended, at the destruction of the instance at address 0 when two are live. -/
theorem event_lowers_no_slot_below_max_witness :
    intl.lifecycle_tracker_base.get_counter (operation.destroy 0 : operation MyInt).kind
      (intl.lifecycle_tracker_base.get_counters two_live) + 1 < SIZE_MOD ∧
    ∀ e, intl.lifecycle_tracker_base.get_counter e
        (intl.lifecycle_tracker_base.get_counters two_live) ≤
      intl.lifecycle_tracker_base.get_counter e
        (intl.lifecycle_tracker_base.get_counters
          (lifecycle_tracker.apply (operation.destroy 0) two_live)) :=
  ⟨by decide,
    (event_lowers_no_slot_below_max (operation.destroy 0) two_live two_live_mt).1
      (by decide)⟩

/-! ## C11 -/

section names

open intl

variable {T : Type} [wrapped T]

/-- With a non-empty cache `get_type_name()` returns the cache and changes nothing. -/
theorem get_type_name_cached (s : state lifecycle_counters T) (h : s.type_name_ ≠ "") :
    lifecycle_tracker_base.get_type_name s = (s.type_name_, s) := by
  simp [lifecycle_tracker_base.get_type_name, h]

theorem mt_get_type_name_cached (s : state lifecycle_tracker_mt_base.cells T)
    (h : s.type_name_ ≠ "") :
    lifecycle_tracker_mt_base.get_type_name s = (s.type_name_, s) := by
  simp [lifecycle_tracker_mt_base.get_type_name, h]

/-- With an empty cache `get_type_name()` returns what `demangler<T>::get()` returns
and stores it in the cache. -/
theorem get_type_name_unset (s : state lifecycle_counters T) (h : s.type_name_ = "") :
    (lifecycle_tracker_base.get_type_name s).1 = (demangler.get s).1 ∧
    (lifecycle_tracker_base.get_type_name s).2.type_name_ = (demangler.get s).1 := by
  simp [lifecycle_tracker_base.get_type_name, h, lifecycle_tracker_base.set_type_name]

end names

/-- C11, as stated, fails for the empty name: after `set_type_name("")` on the tracker
of `MyInt`, the next `get_type_name()` returns the name of the resolver, `"MyInt"`, and
not the empty string that was set. -/
theorem set_empty_name_not_returned :
    (intl.lifecycle_tracker_base.get_type_name
      (intl.lifecycle_tracker_base.set_type_name (start MyInt) "")).1 = "MyInt" ∧
    (intl.lifecycle_tracker_base.get_type_name
      (intl.lifecycle_tracker_base.set_type_name (start MyInt) "")).1 ≠ "" := by
  constructor
  · rfl
  · decide

/-- C11, amended: for every non-empty string `name` and every prior state (of the name
cache and of everything else), after `set_type_name(name)` the next `get_type_name()`
returns exactly `name`, on the serial and on the concurrent tracker. -/
theorem set_name_then_get {T : Type} [wrapped T] (name : String) (hne : name ≠ "")
    (s : state lifecycle_counters T) (m : state intl.lifecycle_tracker_mt_base.cells T) :
    (intl.lifecycle_tracker_base.get_type_name
      (intl.lifecycle_tracker_base.set_type_name s name)).1 = name ∧
    (intl.lifecycle_tracker_mt_base.get_type_name
      (intl.lifecycle_tracker_mt_base.set_type_name m name)).1 = name := by
  constructor
  · rw [get_type_name_cached _ (by simpa [intl.lifecycle_tracker_base.set_type_name] using hne)]
    rfl
  · rw [mt_get_type_name_cached _
      (by simpa [intl.lifecycle_tracker_mt_base.set_type_name] using hne)]
    rfl

/-- C11, amended, at the name the test suite sets. -/
theorem set_name_then_get_witness :
    "std::string" ≠ "" ∧
    (intl.lifecycle_tracker_mt_base.get_type_name
      (intl.lifecycle_tracker_mt_base.set_type_name (start_mt MyInt) "std::string")).1 =
      "std::string" :=
  ⟨by decide, (set_name_then_get "std::string" (by decide) (start MyInt) (start_mt MyInt)).2⟩

/-! ## Memoized names -/

section memo

open intl

variable {T : Type} [wrapped T]

theorem get_type_name_fst_eq_cache (s : state lifecycle_counters T) :
    (lifecycle_tracker_base.get_type_name s).2.type_name_ =
      (lifecycle_tracker_base.get_type_name s).1 := by
  rfl

theorem log_and_increment_type_name (e : lifecycle_event) (self : Addr)
    (s : state lifecycle_counters T) (h : s.type_name_ ≠ "") :
    (lifecycle_tracker_base.log_and_increment e self s).type_name_ = s.type_name_ := by
  have hi : (lifecycle_tracker_base.increment e s).type_name_ ≠ "" := h
  simp only [lifecycle_tracker_base.log_and_increment, get_type_name_cached _ hi]
  rfl

theorem apply_type_name (o : operation T) (s : state lifecycle_counters T)
    (h : s.type_name_ ≠ "") :
    (lifecycle_tracker.apply o s).type_name_ = s.type_name_ := by
  cases o with
  | construct a v =>
    exact log_and_increment_type_name _ _ (s.value_op .Constructor a _) h
  | copy_construct a b =>
    exact log_and_increment_type_name _ _ (s.value_op .CopyConstructor a _) h
  | move_construct a b =>
    exact log_and_increment_type_name _ _ (s.value_op .MoveConstructor a _) h
  | copy_assign a b =>
    by_cases hab : a = b
    · simp [lifecycle_tracker.apply, lifecycle_tracker_base.copy_assign, hab, state.value_op]
    · simp only [lifecycle_tracker.apply, lifecycle_tracker_base.copy_assign, ne_eq, hab,
        not_false_eq_true, if_true]
      exact log_and_increment_type_name _ _ (s.value_op .CopyAssignment a _) h
  | move_assign a b =>
    by_cases hab : a = b
    · simp [lifecycle_tracker.apply, lifecycle_tracker_base.move_assign, hab, state.value_op]
    · simp only [lifecycle_tracker.apply, lifecycle_tracker_base.move_assign, ne_eq, hab,
        not_false_eq_true, if_true]
      exact log_and_increment_type_name _ _ (s.value_op .MoveAssignment a _) h
  | destroy a =>
    simp only [lifecycle_tracker.apply, lifecycle_tracker_base.dtor, state.value_op]
    exact log_and_increment_type_name _ _ s h

/-- No `action` writes a non-empty cache. -/
theorem perform_type_name (a : action T) (s : state lifecycle_counters T)
    (h : s.type_name_ ≠ "") :
    (lifecycle_tracker.perform a s).type_name_ = s.type_name_ := by
  cases a with
  | event o => exact apply_type_name o s h
  | reset_counters => rfl
  | print_counters =>
    simp only [lifecycle_tracker.perform, lifecycle_tracker_base.print_counters,
      get_type_name_cached s h]
    rfl
  | get_type_name =>
    simp only [lifecycle_tracker.perform, get_type_name_cached s h]
  | demangler_set n => rfl

theorem perform_all_type_name (as : List (action T)) :
    ∀ s : state lifecycle_counters T, s.type_name_ ≠ "" →
      (lifecycle_tracker.perform_all as s).type_name_ = s.type_name_ := by
  induction as with
  | nil => intro s _; rfl
  | cons a as ih =>
    intro s h
    have h1 := perform_type_name a s h
    have h2 := ih (lifecycle_tracker.perform a s) (by rw [h1]; exact h)
    show (lifecycle_tracker.perform_all as (lifecycle_tracker.perform a s)).type_name_ = _
    rw [h2, h1]

end memo

/-- Once `get_type_name()` has returned a non-empty name, every later call returns that
name, whatever sequence of `action`s runs in between; with an empty cache the call
returns what `demangler<T>::get()` returns. -/
theorem memoized_of_nonempty {T : Type} [wrapped T] (s : state lifecycle_counters T) :
    (s.type_name_ = "" →
      (intl.lifecycle_tracker_base.get_type_name s).1 = (demangler.get s).1) ∧
    ((intl.lifecycle_tracker_base.get_type_name s).1 ≠ "" →
      ∀ as : List (action T),
        (intl.lifecycle_tracker_base.get_type_name
          (lifecycle_tracker.perform_all as
            (intl.lifecycle_tracker_base.get_type_name s).2)).1 =
          (intl.lifecycle_tracker_base.get_type_name s).1) := by
  refine ⟨fun h => (get_type_name_unset s h).1, fun hne as => ?_⟩
  have h0 : (intl.lifecycle_tracker_base.get_type_name s).2.type_name_ ≠ "" := by
    rw [get_type_name_fst_eq_cache]; exact hne
  have h1 := perform_all_type_name as _ h0
  rw [get_type_name_cached _ (by rw [h1]; exact h0)]
  show (lifecycle_tracker.perform_all as _).type_name_ = _
  rw [h1, get_type_name_fst_eq_cache]

/-! ## C13 -/

/-- C13: for every state of the serial and of the concurrent tracker, `print_counters()`
returns what `get_counters()` returns at that moment, passes that same snapshot (with
the name `get_type_name()` returns) to `print_counters` of the logger, and leaves all
six counters unchanged. -/
theorem print_counters_returns_snapshot {T : Type} [wrapped T]
    (s : state lifecycle_counters T) (m : state intl.lifecycle_tracker_mt_base.cells T) :
    ((intl.lifecycle_tracker_base.print_counters s).1 =
        intl.lifecycle_tracker_base.get_counters s ∧
      (intl.lifecycle_tracker_base.print_counters s).2.trace =
        s.trace ++ [effect.print_counters (intl.lifecycle_tracker_base.print_counters s).1
          (intl.lifecycle_tracker_base.get_type_name s).1] ∧
      intl.lifecycle_tracker_base.get_counters (intl.lifecycle_tracker_base.print_counters s).2 =
        intl.lifecycle_tracker_base.get_counters s) ∧
    ((intl.lifecycle_tracker_mt_base.print_counters m).1 =
        intl.lifecycle_tracker_mt_base.get_counters m ∧
      (intl.lifecycle_tracker_mt_base.print_counters m).2.trace =
        m.trace ++ [effect.print_counters (intl.lifecycle_tracker_mt_base.print_counters m).1
          (intl.lifecycle_tracker_mt_base.get_type_name m).1] ∧
      intl.lifecycle_tracker_mt_base.get_counters
          (intl.lifecycle_tracker_mt_base.print_counters m).2 =
        intl.lifecycle_tracker_mt_base.get_counters m) := by
  refine ⟨⟨rfl, ?_, ?_⟩, ⟨rfl, ?_, ?_⟩⟩
  · simp [intl.lifecycle_tracker_base.print_counters, state.emit, get_type_name_trace]
  · simp [intl.lifecycle_tracker_base.print_counters, state.emit,
      intl.lifecycle_tracker_base.get_counters, get_type_name_counters]
  · simp [intl.lifecycle_tracker_mt_base.print_counters, state.emit, mt_get_type_name_trace]
  · simp [intl.lifecycle_tracker_mt_base.print_counters, state.emit,
      intl.lifecycle_tracker_mt_base.get_counters, mt_get_type_name_counters]

/-! ## C14 -/

/-- C14: for every two snapshots `a` and `b`, `a == b` is true if and only if all six
raw counters of `a` equal those of `b`; and snapshots that compare equal have equal
`total_constructed()`, `total_assigned()` and `alive()`. -/
theorem eq_iff_six_counters_equal (a b : lifecycle_counters) :
    (a.eq b = true ↔
      a.constructor = b.constructor ∧ a.copy_constructor = b.copy_constructor ∧
      a.move_constructor = b.move_constructor ∧ a.copy_assignment = b.copy_assignment ∧
      a.move_assignment = b.move_assignment ∧ a.destructor = b.destructor) ∧
    (a.eq b = true →
      a.total_constructed = b.total_constructed ∧ a.total_assigned = b.total_assigned ∧
      a.alive = b.alive) := by
  have h : a.eq b = true ↔
      a.constructor = b.constructor ∧ a.copy_constructor = b.copy_constructor ∧
      a.move_constructor = b.move_constructor ∧ a.copy_assignment = b.copy_assignment ∧
      a.move_assignment = b.move_assignment ∧ a.destructor = b.destructor := by
    simp [lifecycle_counters.eq, and_assoc]
  refine ⟨h, fun hab => ?_⟩
  obtain ⟨h1, h2, h3, h4, h5, h6⟩ := h.mp hab
  simp [lifecycle_counters.total_constructed, lifecycle_counters.total_assigned,
    lifecycle_counters.alive, h1, h2, h3, h4, h5, h6]

/-- C14 at the final snapshot of the test: it compares equal to itself and differs from
the snapshot before the last six destructions. -/
theorem eq_iff_six_counters_equal_witness :
    lifecycle_counters.eq ⟨9, 10, 0, 3, 0, 19⟩ ⟨9, 10, 0, 3, 0, 19⟩ = true ∧
    lifecycle_counters.alive ⟨9, 10, 0, 3, 0, 19⟩ = lifecycle_counters.alive ⟨9, 10, 0, 3, 0, 19⟩ ∧
    lifecycle_counters.eq ⟨9, 10, 0, 3, 0, 19⟩ ⟨9, 10, 0, 3, 0, 13⟩ = false :=
  ⟨by decide,
    ((eq_iff_six_counters_equal ⟨9, 10, 0, 3, 0, 19⟩ ⟨9, 10, 0, 3, 0, 19⟩).2 (by decide)).2.2,
    by decide⟩

/-! ## C15 -/

/-- C15, as stated, fails from `2 ^ 63` on: for the snapshot whose `constructor` slot is
`2 ^ 63` and whose other slots are 0, `total_constructed()` is `2 ^ 63` and `destructor`
is 0, the conversion to `ptrdiff_t` makes `alive()` equal to `-2 ^ 63`: not the integer
`2 ^ 63 - 0`, and negative although `destructor` does not exceed the sum. -/
theorem alive_negative_at_half_range :
    constructed_half_range.total_constructed = 2 ^ 63 ∧
    constructed_half_range.destructor = 0 ∧
    constructed_half_range.alive = -(2 ^ 63) ∧
    constructed_half_range.alive ≠
      (constructed_half_range.total_constructed : Int) - constructed_half_range.destructor ∧
    ¬ (constructed_half_range.alive < 0 ↔
      constructed_half_range.total_constructed < constructed_half_range.destructor) := by
  have h1 : constructed_half_range.total_constructed = 2 ^ 63 := by
    simp [constructed_half_range, lifecycle_counters.total_constructed, SIZE_MOD]
  have h2 : constructed_half_range.destructor = 0 := rfl
  have h3 : constructed_half_range.alive = -(2 ^ 63) := by
    unfold lifecycle_counters.alive
    rw [h1, h2]
    simp [to_ptrdiff]
  refine ⟨h1, h2, h3, ?_, ?_⟩
  · rw [h3, h1, h2]
    norm_num
  · rw [h3, h1, h2]
    norm_num

/-- C15, amended: for every counter snapshot whose `total_constructed()` and
`destructor` are both below `2 ^ 63`, `alive()` equals the signed integer
`total_constructed() - destructor`, where `total_constructed()` is the `size_t` sum
`constructor + copy_constructor + move_constructor`; it is negative exactly when
`destructor` exceeds that sum. -/
theorem alive_is_difference_below_half_range (k : lifecycle_counters)
    (ht : k.total_constructed < 2 ^ 63) (hd : k.destructor < 2 ^ 63) :
    k.total_constructed =
      (k.constructor + k.copy_constructor + k.move_constructor) % SIZE_MOD ∧
    k.alive = (k.total_constructed : Int) - (k.destructor : Int) ∧
    (k.alive < 0 ↔ k.total_constructed < k.destructor) := by
  have ha : k.alive = (k.total_constructed : Int) - (k.destructor : Int) := by
    unfold lifecycle_counters.alive to_ptrdiff
    rw [if_pos ht, if_pos hd]
  refine ⟨rfl, ha, ?_⟩
  rw [ha]
  omega

/-- C15, amended, at the snapshot `{6, 10, 0, 0, 0, 4}` of the test: `alive()` is 12. -/
theorem alive_is_difference_below_half_range_witness :
    lifecycle_counters.total_constructed ⟨6, 10, 0, 0, 0, 4⟩ < 2 ^ 63 ∧
    lifecycle_counters.destructor ⟨6, 10, 0, 0, 0, 4⟩ < 2 ^ 63 ∧
    lifecycle_counters.alive ⟨6, 10, 0, 0, 0, 4⟩ =
      (lifecycle_counters.total_constructed ⟨6, 10, 0, 0, 0, 4⟩ : Int) -
        (lifecycle_counters.destructor ⟨6, 10, 0, 0, 0, 4⟩ : Int) :=
  ⟨by decide, by decide,
    (alive_is_difference_below_half_range ⟨6, 10, 0, 0, 0, 4⟩ (by decide) (by decide)).2.1⟩

/-! ## C16 -/

section logging

open intl

variable {T : Type}

theorem value_at_cons_same (h : store T) (a : Addr) (v : T) :
    store.value_at ((a, v) :: h) a = some v := by
  simp [store.value_at]

theorem value_at_assign_same (h : store T) (a : Addr) (v : T)
    (ha : (h.value_at a).isSome = true) : (h.assign a v).value_at a = some v := by
  induction h with
  | nil => simp [store.value_at] at ha
  | cons p t ih =>
    by_cases hp : p.1 = a
    · simp [store.value_at, store.assign, hp]
    · have ht : (store.value_at t a).isSome = true := by
        simpa [store.value_at, hp] using ha
      have := ih ht
      simpa [store.value_at, store.assign, hp] using this

theorem value_at_assign_isSome (h : store T) (a b : Addr) (w : T) :
    ((h.assign b w).value_at a).isSome = (h.value_at a).isSome := by
  induction h with
  | nil => rfl
  | cons p t ih =>
    by_cases hb : p.1 = b
    · by_cases ha : b = a
      · simp [store.value_at, store.assign, hb, ha]
      · have ih' : (Option.map (fun p => p.2) (List.find? (fun p => p.1 == a)
            (List.map (fun p => if p.1 == b then (b, w) else p) t))).isSome =
            (Option.map (fun p => p.2) (List.find? (fun p => p.1 == a) t)).isSome := ih
        simpa [store.value_at, store.assign, hb, ha] using ih'
    · by_cases ha : p.1 = a
      · have hab : ¬ a = b := fun h => hb (ha.trans h)
        simp [store.value_at, store.assign, ha, hab]
      · have ih' : (Option.map (fun p => p.2) (List.find? (fun p => p.1 == a)
            (List.map (fun p => if p.1 == b then (b, w) else p) t))).isSome =
            (Option.map (fun p => p.2) (List.find? (fun p => p.1 == a) t)).isSome := ih
        simpa [store.value_at, store.assign, hb, ha] using ih'

/-- After an allowed counted event other than a destruction, the instance acted on
holds `acted_value`. -/
theorem value_after_event [wrapped T] (o : operation T) (h : store T)
    (ha : o.allowed h = true) (hns : o.self_assignment = false)
    (hd : o.kind ≠ .Destructor) :
    (o.on_store h).value_at o.self = o.acted_value h := by
  cases o with
  | construct a v =>
    simp [operation.on_store, operation.self, operation.acted_value, store.construct,
      value_at_cons_same]
  | copy_construct a b =>
    simp only [operation.allowed, Bool.and_eq_true] at ha
    obtain ⟨v, hv⟩ := Option.isSome_iff_exists.mp ha.2
    simp [operation.on_store, operation.self, operation.acted_value, store.copy_construct,
      hv, value_at_cons_same]
  | move_construct a b =>
    simp only [operation.allowed, Bool.and_eq_true] at ha
    obtain ⟨v, hv⟩ := Option.isSome_iff_exists.mp ha.2
    simp [operation.on_store, operation.self, operation.acted_value, store.move_construct,
      hv, value_at_cons_same]
  | copy_assign a b =>
    simp only [operation.allowed, Bool.and_eq_true] at ha
    obtain ⟨v, hv⟩ := Option.isSome_iff_exists.mp ha.2
    simp [operation.on_store, operation.self, operation.acted_value, store.copy_assign,
      hv, value_at_assign_same h a v ha.1]
  | move_assign a b =>
    simp only [operation.allowed, Bool.and_eq_true] at ha
    obtain ⟨v, hv⟩ := Option.isSome_iff_exists.mp ha.2
    have h1 : ((h.assign b (wrapped.moved_from v)).value_at a).isSome = true := by
      rw [value_at_assign_isSome]; exact ha.1
    simp [operation.on_store, operation.self, operation.acted_value, store.move_assign,
      hv, value_at_assign_same _ a v h1]
  | destroy a => exact absurd rfl hd

theorem acted_value_isSome (o : operation T) (h : store T) (ha : o.allowed h = true) :
    (o.acted_value h).isSome = true := by
  cases o with
  | construct a v => rfl
  | copy_construct a b =>
    simp only [operation.allowed, Bool.and_eq_true] at ha; exact ha.2
  | move_construct a b =>
    simp only [operation.allowed, Bool.and_eq_true] at ha; exact ha.2
  | copy_assign a b =>
    simp only [operation.allowed, Bool.and_eq_true] at ha; exact ha.2
  | move_assign a b =>
    simp only [operation.allowed, Bool.and_eq_true] at ha; exact ha.2
  | destroy a => exact ha

theorem logged_append (t t' : List (effect T)) : logged (t ++ t') = logged t ++ logged t' := by
  induction t with
  | nil => rfl
  | cons x t ih => cases x <;> simp [logged, ih]

/-- The `log_event` calls one allowed event adds, serial tracker. -/
theorem apply_logged [wrapped T] (o : operation T) (s : state lifecycle_counters T)
    (ha : o.allowed s.objects = true) :
    logged (lifecycle_tracker.apply o s).trace =
      logged s.trace ++
        (if o.self_assignment then [] else [(o.kind, o.acted_value s.objects)]) := by
  by_cases hsa : o.self_assignment = true
  · rw [apply_trace_self o s hsa, logged_append, if_pos hsa]
    rfl
  · have hns : o.self_assignment = false := by simpa using hsa
    rw [if_neg hsa]
    by_cases hd : o.kind = .Destructor
    · cases o with
      | destroy a => rw [apply_trace_destroy, logged_append]; rfl
      | _ => simp [operation.kind] at hd
    · rw [apply_trace_counted o s hns hd, logged_append, value_after_event o _ ha hns hd]
      rfl

/-- The `log_event` calls one allowed event adds, concurrent tracker. -/
theorem mt_apply_logged [wrapped T] (o : operation T)
    (s : state lifecycle_tracker_mt_base.cells T) (ha : o.allowed s.objects = true) :
    logged (lifecycle_tracker_mt.apply o s).trace =
      logged s.trace ++
        (if o.self_assignment then [] else [(o.kind, o.acted_value s.objects)]) := by
  by_cases hsa : o.self_assignment = true
  · rw [mt_apply_trace_self o s hsa, logged_append, if_pos hsa]
    rfl
  · have hns : o.self_assignment = false := by simpa using hsa
    rw [if_neg hsa]
    by_cases hd : o.kind = .Destructor
    · cases o with
      | destroy a => rw [mt_apply_trace_destroy, logged_append]; rfl
      | _ => simp [operation.kind] at hd
    · rw [mt_apply_trace_counted o s hns hd, logged_append, value_after_event o _ ha hns hd]
      rfl

theorem run_logged [wrapped T] (os : List (operation T)) :
    ∀ s : state lifecycle_counters T, well_formed os s.objects = true →
      logged (lifecycle_tracker.run os s).trace =
        logged s.trace ++ expected_log os s.objects := by
  induction os with
  | nil => intro s _; simp [lifecycle_tracker.run, expected_log]
  | cons o os ih =>
    intro s hw
    simp only [well_formed, Bool.and_eq_true] at hw
    rw [run_cons, ih _ (by rw [apply_objects]; exact hw.2), apply_logged o s hw.1,
      apply_objects]
    simp [expected_log]

theorem mt_run_logged [wrapped T] (os : List (operation T)) :
    ∀ s : state lifecycle_tracker_mt_base.cells T, well_formed os s.objects = true →
      logged (lifecycle_tracker_mt.run os s).trace =
        logged s.trace ++ expected_log os s.objects := by
  induction os with
  | nil => intro s _; simp [lifecycle_tracker_mt.run, expected_log]
  | cons o os ih =>
    intro s hw
    simp only [well_formed, Bool.and_eq_true] at hw
    rw [mt_run_cons, ih _ (by rw [mt_apply_objects]; exact hw.2), mt_apply_logged o s hw.1,
      mt_apply_objects]
    simp [expected_log]

/-- In a well-formed history with no self-assignment the expected log has one entry per
event, of the kind of the event, and every entry carries a value. -/
theorem expected_log_shape [wrapped T] (os : List (operation T)) :
    ∀ h : store T, well_formed os h = true → (∀ o ∈ os, o.self_assignment = false) →
      (expected_log os h).map Prod.fst = os.map operation.kind ∧
      ∀ p ∈ expected_log os h, p.2.isSome = true := by
  induction os with
  | nil => intro h _ _; simp [expected_log]
  | cons o os ih =>
    intro h hw hns
    simp only [well_formed, Bool.and_eq_true] at hw
    have ho : o.self_assignment = false := hns o (List.mem_cons_self _ _)
    obtain ⟨ih1, ih2⟩ := ih (o.on_store h) hw.2 (fun x hx => hns x (List.mem_cons_of_mem _ hx))
    constructor
    · simp [expected_log, ho, ih1]
    · intro p hp
      simp only [expected_log, ho, Bool.false_eq_true, if_false, List.singleton_append,
        List.mem_cons] at hp
      rcases hp with hp | hp
      · rw [hp]; exact acted_value_isSome o h hw.1
      · exact ih2 p hp

end logging

/-- C16: for every well-formed sequence of counted lifecycle events (no
self-assignment), on the serial and on the concurrent tracker, the `log_event` calls
added to the trace are exactly one per event, in event order and of the kind of the
event, and each call receives the embedded `T` value of the instance the event acts
on: the freshly constructed, copied or moved-in value for the three construction
events, the newly assigned value for an assignment, the still-intact value for a
destruction. -/
theorem log_event_once_per_event_with_value {T : Type} [wrapped T]
    (os : List (operation T)) (hns : ∀ o ∈ os, o.self_assignment = false)
    (s : state lifecycle_counters T) (m : state intl.lifecycle_tracker_mt_base.cells T) :
    (well_formed os s.objects = true →
      logged (lifecycle_tracker.run os s).trace = logged s.trace ++ expected_log os s.objects ∧
      (expected_log os s.objects).map Prod.fst = os.map operation.kind ∧
      ∀ p ∈ expected_log os s.objects, p.2.isSome = true) ∧
    (well_formed os m.objects = true →
      logged (lifecycle_tracker_mt.run os m).trace =
        logged m.trace ++ expected_log os m.objects ∧
      (expected_log os m.objects).map Prod.fst = os.map operation.kind ∧
      ∀ p ∈ expected_log os m.objects, p.2.isSome = true) :=
  ⟨fun hw => ⟨run_logged os s hw, expected_log_shape os s.objects hw hns⟩,
    fun hw => ⟨mt_run_logged os m hw, expected_log_shape os m.objects hw hns⟩⟩

/-- C16 at `test_history` from program start: the values logged are those the test
expects, `{10, 17}` and then `{22, 23, 24, 25, 22, 23, 24, 25, 25, 24, 23, 22}`. -/
theorem log_event_once_per_event_with_value_witness :
    (∀ o ∈ test_history, o.self_assignment = false) ∧
    well_formed test_history (start MyInt).objects = true ∧
    logged (lifecycle_tracker.run test_history (start MyInt)).trace =
      logged (start MyInt).trace ++ expected_log test_history (start MyInt).objects ∧
    (expected_log test_history (start MyInt).objects).map Prod.snd =
      [some ⟨10⟩, some ⟨17⟩, some ⟨22⟩, some ⟨23⟩, some ⟨24⟩, some ⟨25⟩, some ⟨22⟩,
        some ⟨23⟩, some ⟨24⟩, some ⟨25⟩, some ⟨25⟩, some ⟨24⟩, some ⟨23⟩, some ⟨22⟩] :=
  ⟨by decide, by decide,
    ((log_event_once_per_event_with_value test_history (by decide) (start MyInt)
      (start_mt MyInt)).1 (by decide)).1,
    by decide⟩

/-! ## C17 -/

/-- The format string `counter_fmt_` split at its eleven replacement fields. -/
theorem counter_fmt_split :
    fmt.split lifecycle_default_logger.counter_fmt_.toList [] none =
      [fmt.segment.text "Lifecycle tracker [type: ", fmt.segment.field 0,
        fmt.segment.text ", uuid: ", fmt.segment.field 0,
        fmt.segment.text "]\n * constructor (ctor/copy/move) : ", fmt.segment.field 5,
        fmt.segment.text " (", fmt.segment.field 0,
        fmt.segment.text "/", fmt.segment.field 0,
        fmt.segment.text "/", fmt.segment.field 0,
        fmt.segment.text ")\n * assign (copy/move)           : ", fmt.segment.field 5,
        fmt.segment.text " (", fmt.segment.field 0,
        fmt.segment.text "/", fmt.segment.field 0,
        fmt.segment.text ")\n * destructor (alive)           : ", fmt.segment.field 5,
        fmt.segment.text " (", fmt.segment.field 0,
        fmt.segment.text ")\n"] := by
  decide

/-- C17: for every counter snapshot, type name and tag, `print_counters` of the default
logger fills the placeholders of its report format, in order, with: type name, tag,
`total_constructed()`, `constructor`, `copy_constructor`, `move_constructor`,
`total_assigned()`, `copy_assignment`, `move_assignment`, `destructor`, `alive()`; so
the line labelled "constructor (ctor/copy/move)" shows the total and the three
construction slots, the line labelled "assign (copy/move)" the total and the two
assignment slots, and the line labelled "destructor (alive)" the destructor slot and
`alive()`. -/
theorem default_report_fields_in_order (Uuid : Nat) (cnts : lifecycle_counters)
    (type_name : String) :
    lifecycle_default_logger.print_counters Uuid cnts type_name =
      [fmt.piece.text "Lifecycle tracker [type: ",
        fmt.piece.value (fmt.arg.str type_name) 0,
        fmt.piece.text ", uuid: ",
        fmt.piece.value (fmt.arg.size Uuid) 0,
        fmt.piece.text "]\n * constructor (ctor/copy/move) : ",
        fmt.piece.value (fmt.arg.size cnts.total_constructed) 5,
        fmt.piece.text " (",
        fmt.piece.value (fmt.arg.size cnts.constructor) 0,
        fmt.piece.text "/",
        fmt.piece.value (fmt.arg.size cnts.copy_constructor) 0,
        fmt.piece.text "/",
        fmt.piece.value (fmt.arg.size cnts.move_constructor) 0,
        fmt.piece.text ")\n * assign (copy/move)           : ",
        fmt.piece.value (fmt.arg.size cnts.total_assigned) 5,
        fmt.piece.text " (",
        fmt.piece.value (fmt.arg.size cnts.copy_assignment) 0,
        fmt.piece.text "/",
        fmt.piece.value (fmt.arg.size cnts.move_assignment) 0,
        fmt.piece.text ")\n * destructor (alive)           : ",
        fmt.piece.value (fmt.arg.size cnts.destructor) 5,
        fmt.piece.text " (",
        fmt.piece.value (fmt.arg.diff cnts.alive) 0,
        fmt.piece.text ")\n"] := by
  unfold lifecycle_default_logger.print_counters fmt.print
    lifecycle_default_logger.log_counters_format
  rw [counter_fmt_split]
  rfl

/-! ## C19 -/

/-- C19, the code at the failing input: `MyInt` is copy-constructible and
nothrow-move-constructible, yet `lifecycle_tracker<MyInt>` is not
nothrow-move-constructible, while `lifecycle_tracker_mt<MyInt>` is. When a vector
holding the two serial instances at addresses 0 and 1 reallocates to addresses 10 and
11, `copy_constructor` and `destructor` rise by 2 and `move_constructor` stays; the
same reallocation of two concurrent tracker instances raises `move_constructor` and
`destructor` by 2 and leaves `copy_constructor`. -/
theorem serial_vector_reallocation_copies :
    lifecycle_tracker.nothrow_move_constructible true = false ∧
    lifecycle_tracker_mt.nothrow_move_constructible true = true ∧
    intl.lifecycle_tracker_base.get_counters two_live = ⟨2, 0, 0, 0, 0, 0⟩ ∧
    intl.lifecycle_tracker_base.get_counters
      (lifecycle_tracker.run
        (vector_reallocate
          (move_if_noexcept_moves (lifecycle_tracker.nothrow_move_constructible true) true)
          [(0, 10), (1, 11)])
        two_live) = ⟨2, 2, 0, 0, 0, 2⟩ ∧
    intl.lifecycle_tracker_mt_base.get_counters two_live_mt = ⟨2, 0, 0, 0, 0, 0⟩ ∧
    intl.lifecycle_tracker_mt_base.get_counters
      (lifecycle_tracker_mt.run
        (vector_reallocate
          (move_if_noexcept_moves (lifecycle_tracker_mt.nothrow_move_constructible true) true)
          [(0, 10), (1, 11)])
        two_live_mt) = ⟨2, 0, 2, 0, 0, 2⟩ := by
  refine ⟨rfl, rfl, rfl, rfl, rfl, rfl⟩

/-! ## C20 -/

section claims_live_count

open intl

variable {T : Type}

end claims_live_count

section claims_reset_live

open intl

variable {T : Type}

theorem run_objects [wrapped T] (os : List (operation T)) :
    ∀ s : state lifecycle_counters T,
      (lifecycle_tracker.run os s).objects = os.foldl (fun h o => o.on_store h) s.objects := by
  induction os with
  | nil => intro s; rfl
  | cons o os ih =>
    intro s
    rw [run_cons, ih, apply_objects]
    rfl

theorem mt_run_objects [wrapped T] (os : List (operation T)) :
    ∀ s : state lifecycle_tracker_mt_base.cells T,
      (lifecycle_tracker_mt.run os s).objects =
        os.foldl (fun h o => o.on_store h) s.objects := by
  induction os with
  | nil => intro s; rfl
  | cons o os ih =>
    intro s
    rw [mt_run_cons, ih, mt_apply_objects]
    rfl

/-- In a history of destructions only, every event is a destruction. -/
theorem occurrences_of_destructions (os : List (operation T))
    (hk : ∀ o ∈ os, o.kind = .Destructor) (e : lifecycle_event) :
    occurrences e os = if e = .Destructor then os.length else 0 := by
  induction os with
  | nil => simp [occurrences]
  | cons o os ih =>
    have ho : o.kind = .Destructor := hk o (List.mem_cons_self _ _)
    rw [occurrences_cons, ih (fun x hx => hk x (List.mem_cons_of_mem _ hx)), ho]
    by_cases he : e = .Destructor
    · simp [he]
    · simp [he, Ne.symm he]

/-- The snapshot after `reset_counters()` and a history of destructions only that
leaves no instance of the `n` live ones. -/
theorem destructions_snapshot [wrapped T] (n : Nat) (os : List (operation T))
    (hk : ∀ o ∈ os, o.kind = .Destructor) (s : state lifecycle_counters T)
    (hl : s.objects.length = n) (hw : well_formed os s.objects = true)
    (hend : (lifecycle_tracker.run os (lifecycle_tracker_base.reset_counters s)).objects = []) :
    lifecycle_tracker_base.get_counters
      (lifecycle_tracker.run os (lifecycle_tracker_base.reset_counters s)) =
      ⟨0, 0, 0, 0, 0, n % SIZE_MOD⟩ := by
  have hlive := run_live_count os (lifecycle_tracker_base.reset_counters s) hw
  have hobj : (lifecycle_tracker_base.reset_counters s).objects.length = n := hl
  rw [hend, hobj] at hlive
  simp only [occurrences_of_destructions os hk, List.length_nil] at hlive
  have hlen : os.length = n := by simpa using hlive
  have hns : ∀ o ∈ os, o.self_assignment = false := by
    intro o ho
    have := hk o ho
    cases o <;> simp_all [operation.kind, operation.self_assignment]
  have key : ∀ e, lifecycle_tracker_base.get_counter e
      (lifecycle_tracker.run os (lifecycle_tracker_base.reset_counters s)).counters_ =
      occurrences e os % SIZE_MOD := by
    intro e
    have h := run_counter e os (lifecycle_tracker_base.reset_counters s)
      (by rw [reset_counter_zero]; exact SIZE_MOD_pos)
    rw [counted_eq_kind_of_not_self e _ hns, reset_counter_zero, Nat.zero_add] at h
    exact h
  unfold lifecycle_tracker_base.get_counters
  apply counters_ext
  intro e
  rw [key e, occurrences_of_destructions os hk, hlen]
  cases e <;> simp [lifecycle_tracker_base.get_counter]

theorem mt_destructions_snapshot [wrapped T] (n : Nat) (os : List (operation T))
    (hk : ∀ o ∈ os, o.kind = .Destructor) (m : state lifecycle_tracker_mt_base.cells T)
    (hl : m.objects.length = n) (hw : well_formed os m.objects = true)
    (hend : (lifecycle_tracker_mt.run os
      (lifecycle_tracker_mt_base.reset_counters m)).objects = []) :
    lifecycle_tracker_mt_base.get_counters
      (lifecycle_tracker_mt.run os (lifecycle_tracker_mt_base.reset_counters m)) =
      ⟨0, 0, 0, 0, 0, n % SIZE_MOD⟩ := by
  have hsim := mt_run_snapshot os
    (lifecycle_tracker_base.reset_counters ({ start T with objects := m.objects }))
    (lifecycle_tracker_mt_base.reset_counters m) (by rw [mt_reset_snapshot]; rfl)
  rw [hsim]
  have hend' : (lifecycle_tracker.run os
      (lifecycle_tracker_base.reset_counters
        ({ start T with objects := m.objects }))).objects = [] := by
    rw [run_objects]
    rw [mt_run_objects] at hend
    exact hend
  exact destructions_snapshot n os hk ({ start T with objects := m.objects }) hl hw hend'

theorem alive_of_destructions_only (n : Nat) (hn : n < 2 ^ 63) :
    (⟨0, 0, 0, 0, 0, n % SIZE_MOD⟩ : lifecycle_counters).destructor = n ∧
    (⟨0, 0, 0, 0, 0, n % SIZE_MOD⟩ : lifecycle_counters).total_constructed = 0 ∧
    (⟨0, 0, 0, 0, 0, n % SIZE_MOD⟩ : lifecycle_counters).alive = -(n : Int) := by
  have hmod : n % SIZE_MOD = n := by
    simp only [SIZE_MOD]; omega
  rw [hmod]
  refine ⟨rfl, by simp [lifecycle_counters.total_constructed], ?_⟩
  have h0 : (0 : Nat) % SIZE_MOD = 0 := Nat.zero_mod _
  unfold lifecycle_counters.alive lifecycle_counters.total_constructed to_ptrdiff
  simp only [Nat.add_zero, h0]
  rw [if_pos (by norm_num), if_pos hn]
  simp

end claims_reset_live

/-- C21: `reset_counters()` takes no account of live instances: for every number `n` of
instances that can be live at once (below `2 ^ 63`: more tracked instances do not fit a
64-bit address space), if `reset_counters()` is called while `n` tracked instances are
live (serial or concurrent tracker) and those `n` instances are then destroyed with no
other event, `get_counters()` has `destructor == n`, `total_constructed() == 0` and
`alive() == -n`. -/
theorem reset_ignores_live_instances {T : Type} [wrapped T] (n : Nat) (hn : n < 2 ^ 63)
    (os : List (operation T)) (hk : ∀ o ∈ os, o.kind = .Destructor)
    (s : state lifecycle_counters T) (m : state intl.lifecycle_tracker_mt_base.cells T) :
    (s.objects.length = n → well_formed os s.objects = true →
      (lifecycle_tracker.run os (intl.lifecycle_tracker_base.reset_counters s)).objects = [] →
      (intl.lifecycle_tracker_base.get_counters
          (lifecycle_tracker.run os
            (intl.lifecycle_tracker_base.reset_counters s))).destructor = n ∧
      (intl.lifecycle_tracker_base.get_counters
          (lifecycle_tracker.run os
            (intl.lifecycle_tracker_base.reset_counters s))).total_constructed = 0 ∧
      (intl.lifecycle_tracker_base.get_counters
          (lifecycle_tracker.run os
            (intl.lifecycle_tracker_base.reset_counters s))).alive = -(n : Int)) ∧
    (m.objects.length = n → well_formed os m.objects = true →
      (lifecycle_tracker_mt.run os
        (intl.lifecycle_tracker_mt_base.reset_counters m)).objects = [] →
      (intl.lifecycle_tracker_mt_base.get_counters
          (lifecycle_tracker_mt.run os
            (intl.lifecycle_tracker_mt_base.reset_counters m))).destructor = n ∧
      (intl.lifecycle_tracker_mt_base.get_counters
          (lifecycle_tracker_mt.run os
            (intl.lifecycle_tracker_mt_base.reset_counters m))).total_constructed = 0 ∧
      (intl.lifecycle_tracker_mt_base.get_counters
          (lifecycle_tracker_mt.run os
            (intl.lifecycle_tracker_mt_base.reset_counters m))).alive = -(n : Int)) := by
  constructor
  · intro hl hw hend
    rw [destructions_snapshot n os hk s hl hw hend]
    exact alive_of_destructions_only n hn
  · intro hl hw hend
    rw [mt_destructions_snapshot n os hk m hl hw hend]
    exact alive_of_destructions_only n hn

/-- C21 at `n = 2`: `reset_counters()` while the two `MyInt` instances of
`two_live` are live, then both are destroyed; `alive()` is -2. -/
theorem reset_ignores_live_instances_witness :
    (2 : Nat) < 2 ^ 63 ∧
    (∀ o ∈ [operation.destroy 0, (operation.destroy 1 : operation MyInt)],
      o.kind = .Destructor) ∧
    two_live.objects.length = 2 ∧
    well_formed [operation.destroy 0, operation.destroy 1] two_live.objects = true ∧
    (lifecycle_tracker.run [operation.destroy 0, operation.destroy 1]
      (intl.lifecycle_tracker_base.reset_counters two_live)).objects = [] ∧
    (intl.lifecycle_tracker_base.get_counters
      (lifecycle_tracker.run [operation.destroy 0, operation.destroy 1]
        (intl.lifecycle_tracker_base.reset_counters two_live))).alive = -((2 : Nat) : Int) :=
  ⟨by decide, by decide, by decide, by decide, by decide,
    ((reset_ignores_live_instances 2 (by decide)
      [operation.destroy 0, operation.destroy 1] (by decide) two_live two_live_mt).1
      (by decide) (by decide) (by decide)).2.2⟩

/-! ## C22 -/

section claims_unset

open intl

variable {T : Type} [wrapped T]

theorem mt_get_type_name_unset (s : state lifecycle_tracker_mt_base.cells T)
    (h : s.type_name_ = "") :
    (lifecycle_tracker_mt_base.get_type_name s).1 = (demangler.get s).1 ∧
    (lifecycle_tracker_mt_base.get_type_name s).2.type_name_ = (demangler.get s).1 := by
  simp [lifecycle_tracker_mt_base.get_type_name, h, lifecycle_tracker_mt_base.set_type_name]

/-- The name `demangler<T>::get()` returns depends on `demangler<T>::type_name_` only. -/
theorem demangler_get_fst {C C' : Type} (s : state C T) (s' : state C' T)
    (h : s.demangler_type_name_ = s'.demangler_type_name_) :
    (demangler.get s).1 = (demangler.get s').1 := by
  unfold demangler.get
  by_cases hd : s'.demangler_type_name_ = "" <;> simp [h, hd, demangler.set_default_]

/-- A non-empty default makes the name of the resolver non-empty in every state. -/
theorem demangler_get_nonempty {C : Type} (s : state C T)
    (hd : wrapped.default_name T ≠ "") : (demangler.get s).1 ≠ "" := by
  unfold demangler.get
  by_cases h : s.demangler_type_name_ = ""
  · simpa [h, demangler.set_default_] using hd
  · simp [h]

theorem get_type_name_nonempty (s : state lifecycle_counters T)
    (hr : (demangler.get s).1 ≠ "") : (lifecycle_tracker_base.get_type_name s).1 ≠ "" := by
  by_cases h : s.type_name_ = ""
  · rw [(get_type_name_unset s h).1]; exact hr
  · rw [get_type_name_cached s h]; exact h

theorem mt_get_type_name_nonempty (s : state lifecycle_tracker_mt_base.cells T)
    (hr : (demangler.get s).1 ≠ "") : (lifecycle_tracker_mt_base.get_type_name s).1 ≠ "" := by
  by_cases h : s.type_name_ = ""
  · rw [(mt_get_type_name_unset s h).1]; exact hr
  · rw [mt_get_type_name_cached s h]; exact h

end claims_unset

/-- C22: an empty name is treated as unset. On the serial and on the concurrent
tracker, in every state: after `set_type_name("")` the next `get_type_name()` returns
the name `demangler<T>::get()` returns for `T` and stores it in the cache; and as long
as that name of the resolver is non-empty, `get_type_name()` does not return the empty
string, neither right after `set_type_name("")` nor in any other state. -/
theorem empty_name_is_unset {T : Type} [wrapped T] (s : state lifecycle_counters T)
    (m : state intl.lifecycle_tracker_mt_base.cells T) :
    ((intl.lifecycle_tracker_base.get_type_name
          (intl.lifecycle_tracker_base.set_type_name s "")).1 = (demangler.get s).1 ∧
      (intl.lifecycle_tracker_base.get_type_name
          (intl.lifecycle_tracker_base.set_type_name s "")).2.type_name_ =
        (demangler.get s).1 ∧
      ((demangler.get s).1 ≠ "" →
        (intl.lifecycle_tracker_base.get_type_name
          (intl.lifecycle_tracker_base.set_type_name s "")).1 ≠ "" ∧
        (intl.lifecycle_tracker_base.get_type_name s).1 ≠ "")) ∧
    ((intl.lifecycle_tracker_mt_base.get_type_name
          (intl.lifecycle_tracker_mt_base.set_type_name m "")).1 = (demangler.get m).1 ∧
      (intl.lifecycle_tracker_mt_base.get_type_name
          (intl.lifecycle_tracker_mt_base.set_type_name m "")).2.type_name_ =
        (demangler.get m).1 ∧
      ((demangler.get m).1 ≠ "" →
        (intl.lifecycle_tracker_mt_base.get_type_name
          (intl.lifecycle_tracker_mt_base.set_type_name m "")).1 ≠ "" ∧
        (intl.lifecycle_tracker_mt_base.get_type_name m).1 ≠ "")) ∧
    (wrapped.default_name T ≠ "" →
      (intl.lifecycle_tracker_base.get_type_name s).1 ≠ "" ∧
      (intl.lifecycle_tracker_mt_base.get_type_name m).1 ≠ "") := by
  have hs := get_type_name_unset (intl.lifecycle_tracker_base.set_type_name s "") rfl
  have hm := mt_get_type_name_unset (intl.lifecycle_tracker_mt_base.set_type_name m "") rfl
  have ds : (demangler.get (intl.lifecycle_tracker_base.set_type_name s "")).1 =
      (demangler.get s).1 := demangler_get_fst _ _ rfl
  have dm : (demangler.get (intl.lifecycle_tracker_mt_base.set_type_name m "")).1 =
      (demangler.get m).1 := demangler_get_fst _ _ rfl
  rw [ds] at hs
  rw [dm] at hm
  refine ⟨⟨hs.1, hs.2, fun hr => ⟨?_, get_type_name_nonempty s hr⟩⟩,
    ⟨hm.1, hm.2, fun hr => ⟨?_, mt_get_type_name_nonempty m hr⟩⟩,
    fun hd => ⟨get_type_name_nonempty s (demangler_get_nonempty s hd),
      mt_get_type_name_nonempty m (demangler_get_nonempty m hd)⟩⟩
  · rw [hs.1]; exact hr
  · rw [hm.1]; exact hr

/-- C22 on the trackers of `MyInt` at program start: the resolver name `"MyInt"` is
non-empty, and after `set_type_name("")` the next `get_type_name()` returns it. -/
theorem empty_name_is_unset_witness :
    (demangler.get (start MyInt)).1 ≠ "" ∧
    wrapped.default_name MyInt ≠ "" ∧
    (intl.lifecycle_tracker_base.get_type_name
      (intl.lifecycle_tracker_base.set_type_name (start MyInt) "")).1 ≠ "" ∧
    (intl.lifecycle_tracker_base.get_type_name (start MyInt)).1 ≠ "" ∧
    (intl.lifecycle_tracker_mt_base.get_type_name (start_mt MyInt)).1 ≠ "" :=
  ⟨by decide, by decide,
    ((empty_name_is_unset (start MyInt) (start_mt MyInt)).1.2.2 (by decide)).1,
    ((empty_name_is_unset (start MyInt) (start_mt MyInt)).2.2 (by decide)).1,
    ((empty_name_is_unset (start MyInt) (start_mt MyInt)).2.2 (by decide)).2⟩

/-! ## C12 -/

/-- C12: name resolution is memoized. For a class `T` (the name `set_default_` computes
for a class, its demangled or `typeid` name, is not empty), in every state of the
serial tracker: when nothing was set, `get_type_name()` returns the name
`demangler<T>::get()` returns; and every later `get_type_name()` returns the name the
first call returned, whatever sequence of lifecycle events, `reset_counters()`,
`print_counters()`, `get_type_name()` and `demangler<T>::set` calls (no `set_type_name`
among them) runs in between. -/
theorem name_memoized {T : Type} [wrapped T] (hd : wrapped.default_name T ≠ "")
    (s : state lifecycle_counters T) :
    (s.type_name_ = "" →
      (intl.lifecycle_tracker_base.get_type_name s).1 = (demangler.get s).1) ∧
    (∀ as : List (action T),
      (intl.lifecycle_tracker_base.get_type_name
        (lifecycle_tracker.perform_all as
          (intl.lifecycle_tracker_base.get_type_name s).2)).1 =
        (intl.lifecycle_tracker_base.get_type_name s).1) :=
  ⟨(memoized_of_nonempty s).1,
    (memoized_of_nonempty s).2 (get_type_name_nonempty s (demangler_get_nonempty s hd))⟩

/-- C12 on the tracker of `MyInt` from program start: the first call resolves
`"MyInt"`; after the resolver is renamed, an instance is constructed and the counters
are printed, the name returned is still `"MyInt"`. -/
theorem name_memoized_witness :
    wrapped.default_name MyInt ≠ "" ∧
    (start MyInt).type_name_ = "" ∧
    (intl.lifecycle_tracker_base.get_type_name (start MyInt)).1 =
      (demangler.get (start MyInt)).1 ∧
    (intl.lifecycle_tracker_base.get_type_name
      (lifecycle_tracker.perform_all
        [action.demangler_set "Renamed", action.event (operation.construct 0 (MyInt.mk 1)),
          action.print_counters]
        (intl.lifecycle_tracker_base.get_type_name (start MyInt)).2)).1 = "MyInt" :=
  ⟨by decide, rfl, (name_memoized (by decide) (start MyInt)).1 rfl,
    (name_memoized (by decide) (start MyInt)).2
      [action.demangler_set "Renamed", action.event (operation.construct 0 (MyInt.mk 1)),
        action.print_counters]⟩

end qs
